import Mathlib

/-!
# Verification of the MetaHuman → CC5 lipsync pipeline

A shallow embedding of the blendshape conversion and playback code of the
Reallusion_CC5 repository:

* `evaluateCurve`, `METAHUMAN_TO_CC5_MAPPING` and `convertMetaHumanToCC5`
  from `src/constants/mappings/metahuman/metahumanToCC5.js`;
* the playback tick (`useFrame` body of `useMetahumanLipsync`),
  `applyMorphValueSmooth`, `jawValueToRotation` and the morph write loop of
  `applyMetaHumanToCC5` from the lipsync hook;
* `JAW_CONFIG` and `ANIMATION_CONFIG.LIPSYNC_FADE_IN_DURATION` from
  `src/constants/convaiConfig.js`.

JavaScript numbers are modelled as rationals, JS objects / `Map`s keyed by
strings as association lists `List (String × ℚ)` or as functions
`String → Option ℚ`, and the idiom `obj[k] || 0` as `(frame k).getD 0`.
-/

set_option maxHeartbeats 2000000
set_option maxRecDepth 100000

namespace CC5

/-- A curve keyframe `{time, value}`. -/
structure CurveKey where
  time : ℚ
  value : ℚ
deriving DecidableEq, Repr

/-- One entry of `METAHUMAN_TO_CC5_MAPPING`:
`{name, source, target, mode, curve}`. -/
structure MappingRule where
  name : String
  source : List String
  target : String
  mode : String
  curve : List CurveKey
deriving DecidableEq, Repr

/-- `Math.max` on two numbers (reduces in the kernel, unlike `max` on `ℚ`). -/
def jsMax (a b : ℚ) : ℚ := if a ≤ b then b else a

/-- `Math.min` on two numbers. -/
def jsMin (a b : ℚ) : ℚ := if a ≤ b then a else b

theorem jsMax_eq_max (a b : ℚ) : jsMax a b = max a b := (max_def a b).symm

theorem jsMin_eq_min (a b : ℚ) : jsMin a b = min a b := (min_def a b).symm

/-- The `for` loop of `evaluateCurve`: find the first consecutive pair of
keys bracketing the input (`keys[i].time <= x && x <= keys[i+1].time`). -/
def findBracket (keys : List CurveKey) (x : ℚ) : Option (CurveKey × CurveKey) :=
  (keys.zip keys.tail).find? fun p => decide (p.1.time ≤ x) && decide (x ≤ p.2.time)

/-- `evaluateCurve(keys, inputValue)` from `metahumanToCC5.js`:
empty curve passes the input through; otherwise the input is clamped to
`[0,1]`, boundary keys are returned at or outside the ends, and otherwise
the first bracketing pair is linearly interpolated (with the first key's
value returned on a zero time delta).  When the bracket search fails the
loop's initial values (first and last key) are used, exactly as in the
source. -/
def evaluateCurve (keys : List CurveKey) (inputValue : ℚ) : ℚ :=
  match keys with
  | [] => inputValue
  | k0 :: rest =>
    let x := jsMax 0 (jsMin 1 inputValue)
    let kl := rest.getLastD k0
    if x ≤ k0.time then k0.value
    else if kl.time ≤ x then kl.value
    else
      let p := (findBracket (k0 :: rest) x).getD (k0, kl)
      let timeDelta := p.2.time - p.1.time
      if timeDelta = 0 then p.1.value
      else
        let t := (x - p.1.time) / timeDelta
        p.1.value + (p.2.value - p.1.value) * t

/-- An input frame: a JS object mapping channel names to numbers.  Absent
keys are `none`. -/
def Frame : Type := String → Option ℚ

/-- `frame[key] || 0`: an absent source channel counts as `0`. -/
def lookup0 (frame : Frame) (key : String) : ℚ := (frame key).getD 0

/-- The per-rule combined source value of `convertMetaHumanToCC5`:
`Add` multiplies all source values, `Limit` treats the first source as a
ceiling for the remaining ones (passing a single source through), any
other mode leaves the initial `0`. -/
def ruleValue (frame : Frame) (r : MappingRule) : ℚ :=
  if r.mode = "Add" then
    r.source.foldl (fun product sourceKey => product * lookup0 frame sourceKey) 1
  else if r.mode = "Limit" then
    let limit := match r.source with
      | [] => 0
      | s :: _ => lookup0 frame s
    if r.source.length = 1 then
      limit
    else
      (r.source.drop 1).foldl
        (fun product sourceKey => product * jsMin limit (lookup0 frame sourceKey)) 1
  else 0

/-- The curve-evaluated contribution of one mapping rule
(`value = evaluateCurve(curve, value)` when a non-empty curve is given). -/
def contribution (frame : Frame) (r : MappingRule) : ℚ :=
  if r.curve ≠ [] then evaluateCurve r.curve (ruleValue frame r)
  else ruleValue frame r

/-- Association-list lookup, the shallow embedding of `obj[key]`. -/
def objGet : List (String × ℚ) → String → Option ℚ
  | [], _ => none
  | (k, v) :: rest, key => if k = key then some v else objGet rest key

/-- `if (obj[target] !== undefined) obj[target] *= value; else obj[target] = value`. -/
def writeMul (obj : List (String × ℚ)) (key : String) (value : ℚ) :
    List (String × ℚ) :=
  match objGet obj key with
  | some _ => obj.map fun p => if p.1 = key then (p.1, p.2 * value) else p
  | none => obj ++ [(key, value)]

/-- The `METAHUMAN_TO_CC5_MAPPING.forEach` pass of `convertMetaHumanToCC5`,
before the teeth-offset post-processing. -/
def mappingPass (rules : List MappingRule) (frame : Frame) : List (String × ℚ) :=
  rules.foldl (fun obj r => writeMul obj r.target (contribution frame r)) []

/-- The two corrective targets receiving the constant teeth offset. -/
def teethCorrectives : List String :=
  ["C_FunnelDL_LowerLipDepressL", "C_FunnelDR_LowerLipDepressR"]

/-- One step of the teeth-offset post-processing:
existing values get `min(1.0, value + teethDownOffset)`, otherwise the
offset itself is stored. -/
def applyTeethOffset (teethDownOffset : ℚ) (obj : List (String × ℚ))
    (key : String) : List (String × ℚ) :=
  match objGet obj key with
  | some _ => obj.map fun p =>
      if p.1 = key then (p.1, jsMin 1 (p.2 + teethDownOffset)) else p
  | none => obj ++ [(key, teethDownOffset)]

/-- Rules 1–16 of `METAHUMAN_TO_CC5_MAPPING`. -/
def MAPPING_PART_0 : List MappingRule := [
  ⟨"NoseWrinkleL_BrowDownL", ["CTRL_expressions_noseWrinkleL", "CTRL_expressions_browDownL"], "C_NoseWrinkleL_BrowDownL", "Add", [⟨0, 0⟩, ⟨1, 1⟩]⟩,
  ⟨"NoseWrinkleR_BrowDownR", ["CTRL_expressions_noseWrinkleR", "CTRL_expressions_browDownR"], "C_NoseWrinkleR_BrowDownR", "Add", [⟨0, 0⟩, ⟨1, 1⟩]⟩,
  ⟨"BlinkL", ["CTRL_expressions_eyeBlinkL"], "C_BlinkL", "Add", [⟨0, 0⟩, ⟨(1/2), 1⟩, ⟨1, 0⟩]⟩,
  ⟨"BlinkR", ["CTRL_expressions_eyeBlinkR"], "C_BlinkR", "Add", [⟨0, 0⟩, ⟨(1/2), 1⟩, ⟨1, 0⟩]⟩,
  ⟨"BlinkL_LookDownL", ["CTRL_expressions_eyeBlinkL", "CTRL_expressions_eyeLookDownL"], "C_BlinkL_LookDownL", "Add", [⟨0, 0⟩, ⟨1, 1⟩]⟩,
  ⟨"BlinkR_LookDownR", ["CTRL_expressions_eyeBlinkR", "CTRL_expressions_eyeLookDownR"], "C_BlinkR_LookDownR", "Add", [⟨0, 0⟩, ⟨1, 1⟩]⟩,
  ⟨"BlinkL_LookUpL", ["CTRL_expressions_eyeBlinkL", "CTRL_expressions_eyeLookUpL"], "C_BlinkL_LookUpL", "Add", [⟨0, 0⟩, ⟨1, 1⟩]⟩,
  ⟨"BlinkR_LookUpR", ["CTRL_expressions_eyeBlinkR", "CTRL_expressions_eyeLookUpR"], "C_BlinkR_LookUpR", "Add", [⟨0, 0⟩, ⟨1, 1⟩]⟩,
  ⟨"BlinkL_SquintInnerL", ["CTRL_expressions_eyeBlinkL", "CTRL_expressions_eyeSquintInnerL"], "C_BlinkL_SquintInnerL", "Add", [⟨0, 0⟩, ⟨1, 1⟩]⟩,
  ⟨"BlinkR_SquintInnerR", ["CTRL_expressions_eyeBlinkR", "CTRL_expressions_eyeSquintInnerR"], "C_BlinkR_SquintInnerR", "Add", [⟨0, 0⟩, ⟨1, 1⟩]⟩,
  ⟨"BlinkL_CheekRaiseL", ["CTRL_expressions_eyeBlinkL", "CTRL_expressions_eyeCheekRaiseL"], "C_BlinkL_CheekRaiseL", "Add", [⟨0, 0⟩, ⟨1, 1⟩]⟩,
  ⟨"BlinkL_CheekRaiseR", ["CTRL_expressions_eyeBlinkR", "CTRL_expressions_eyeCheekRaiseR"], "C_BlinkR_CheekRaiseR", "Add", [⟨0, 0⟩, ⟨1, 1⟩]⟩,
  ⟨"BlinkL_LookLeftL", ["CTRL_expressions_eyeBlinkL", "CTRL_expressions_eyeLookLeftL"], "C_BlinkL_LookLeftL", "Add", [⟨0, 0⟩, ⟨1, 1⟩]⟩,
  ⟨"BlinkR_LookLeftR", ["CTRL_expressions_eyeBlinkR", "CTRL_expressions_eyeLookLeftR"], "C_BlinkR_LookLeftR", "Add", [⟨0, 0⟩, ⟨1, 1⟩]⟩,
  ⟨"BlinkL_LookRightL", ["CTRL_expressions_eyeBlinkL", "CTRL_expressions_eyeLookRightL"], "C_BlinkL_LookRightL", "Add", [⟨0, 0⟩, ⟨1, 1⟩]⟩,
  ⟨"BlinkR_LookRightR", ["CTRL_expressions_eyeBlinkR", "CTRL_expressions_eyeLookRightR"], "C_BlinkR_LookRightR", "Add", [⟨0, 0⟩, ⟨1, 1⟩]⟩
]

/-- Rules 17–32 of `METAHUMAN_TO_CC5_MAPPING`. -/
def MAPPING_PART_1 : List MappingRule := [
  ⟨"BlinkL_SquintInnerL_CheekRaiseL", ["CTRL_expressions_eyeCheekRaiseL", "CTRL_expressions_eyeSquintInnerL", "CTRL_expressions_eyeBlinkL"], "C_BlinkL_SquintInnerL_CheekRaiseL", "Add", [⟨0, 0⟩, ⟨1, 1⟩]⟩,
  ⟨"BlinkR_SquintInnerR_CheekRaiseR", ["CTRL_expressions_eyeCheekRaiseR", "CTRL_expressions_eyeSquintInnerR", "CTRL_expressions_eyeBlinkR"], "C_BlinkR_SquintInnerR_CheekRaiseR", "Add", [⟨0, 0⟩, ⟨1, 1⟩]⟩,
  ⟨"WidenL_LookDownL", ["CTRL_expressions_eyeLookDownL", "CTRL_expressions_eyeWidenL"], "C_WidenL_LookDownL", "Add", [⟨0, 0⟩, ⟨1, 1⟩]⟩,
  ⟨"WidenR_LookDownR", ["CTRL_expressions_eyeLookDownR", "CTRL_expressions_eyeWidenR"], "C_WidenR_LookDownR", "Add", [⟨0, 0⟩, ⟨1, 1⟩]⟩,
  ⟨"CheekRaiseL_SquintInnerL", ["CTRL_expressions_eyeCheekRaiseL", "CTRL_expressions_eyeSquintInnerL"], "C_CheekRaiseL_SquintInnerL", "Add", [⟨0, 0⟩, ⟨1, 1⟩]⟩,
  ⟨"CheekRaiseR_SquintInnerR", ["CTRL_expressions_eyeCheekRaiseR", "CTRL_expressions_eyeSquintInnerR"], "C_CheekRaiseR_SquintInnerR", "Add", [⟨0, 0⟩, ⟨1, 1⟩]⟩,
  ⟨"CheekBlowL_CheekBlowR", ["CTRL_expressions_mouthCheekBlowL", "CTRL_expressions_mouthCheekBlowR"], "C_CheekBlowL_CheekBlowR", "Add", [⟨0, 0⟩, ⟨1, 1⟩]⟩,
  ⟨"CheekRaiseL_MouthCornerPullL", ["CTRL_expressions_eyeCheekRaiseL", "CTRL_expressions_mouthCornerPullL"], "C_CheekRaiseL_CornerPullL", "Add", [⟨0, 0⟩, ⟨1, 1⟩]⟩,
  ⟨"CheekRaiseR_MouthCornerPullR", ["CTRL_expressions_eyeCheekRaiseR", "CTRL_expressions_mouthCornerPullR"], "C_CheekRaiseR_CornerPullR", "Add", [⟨0, 0⟩, ⟨1, 1⟩]⟩,
  ⟨"WrinkleL_UpperLipRaiseL", ["CTRL_expressions_noseWrinkleL", "CTRL_expressions_mouthUpperLipRaiseL"], "C_WrinkleL_UpperLipRaiseL", "Add", [⟨0, 0⟩, ⟨1, 1⟩]⟩,
  ⟨"WrinkleR_UpperLipRaiseR", ["CTRL_expressions_noseWrinkleR", "CTRL_expressions_mouthUpperLipRaiseR"], "C_WrinkleR_UpperLipRaiseR", "Add", [⟨0, 0⟩, ⟨1, 1⟩]⟩,
  ⟨"WrinkleL_MouthCornerPullL", ["CTRL_expressions_noseWrinkleL", "CTRL_expressions_mouthCornerPullL"], "C_WrinkleL_MouthCornerPullL", "Add", [⟨0, 0⟩, ⟨1, 1⟩]⟩,
  ⟨"WrinkleR_MouthCornerPullR", ["CTRL_expressions_noseWrinkleR", "CTRL_expressions_mouthCornerPullR"], "C_WrinkleR_MouthCornerPullR", "Add", [⟨0, 0⟩, ⟨1, 1⟩]⟩,
  ⟨"CornerPullL_CornerPullR", ["CTRL_expressions_mouthCornerPullL", "CTRL_expressions_mouthCornerPullR"], "C_CornerPullL_CornerPullR", "Add", [⟨0, 0⟩, ⟨1, 1⟩]⟩,
  ⟨"CornerPullL_LowerLipDepressL", ["CTRL_expressions_mouthCornerPullL", "CTRL_expressions_mouthLowerLipDepressL"], "C_CornerPullL_LowerLipDepressL", "Add", [⟨0, 0⟩, ⟨1, 1⟩]⟩,
  ⟨"CornerPullR_LowerLipDepressR", ["CTRL_expressions_mouthCornerPullR", "CTRL_expressions_mouthLowerLipDepressR"], "C_CornerPullR_LowerLipDepressR", "Add", [⟨0, (9009/1000000)⟩, ⟨1, 1⟩]⟩
]

/-- Rules 33–48 of `METAHUMAN_TO_CC5_MAPPING`. -/
def MAPPING_PART_2 : List MappingRule := [
  ⟨"CornerPullL_UpperLipRaiseL", ["CTRL_expressions_mouthCornerPullL", "CTRL_expressions_mouthUpperLipRaiseL"], "C_CornerPullL_UpperLipRaiseL", "Add", [⟨0, (-3497/1000000)⟩, ⟨1, 1⟩]⟩,
  ⟨"CornerPullR_UpperLipRaiseR", ["CTRL_expressions_mouthCornerPullR", "CTRL_expressions_mouthUpperLipRaiseR"], "C_CornerPullR_UpperLipRaiseR", "Add", [⟨0, (-3497/1000000)⟩, ⟨1, 1⟩]⟩,
  ⟨"CornerPullL_StretchL", ["CTRL_expressions_mouthCornerPullL", "CTRL_expressions_mouthStretchL"], "C_CornerPullL_StretchL", "Add", [⟨0, 0⟩, ⟨1, 1⟩]⟩,
  ⟨"CornerPullR_StretchR", ["CTRL_expressions_mouthCornerPullR", "CTRL_expressions_mouthStretchR"], "C_CornerPullR_StretchR", "Add", [⟨0, 0⟩, ⟨1, 1⟩]⟩,
  ⟨"StretchL_CornerPullL_LowerLipDepressL", ["CTRL_expressions_mouthStretchL", "CTRL_expressions_mouthCornerPullL", "CTRL_expressions_mouthLowerLipDepressL"], "C_StretchL_CornerPullL_LowerLipDepressL", "Add", [⟨0, 0⟩, ⟨1, 1⟩]⟩,
  ⟨"StretchR_CornerPullR_LowerLipDepressR", ["CTRL_expressions_mouthStretchR", "CTRL_expressions_mouthCornerPullR", "CTRL_expressions_mouthLowerLipDepressR"], "C_StretchR_CornerPullR_LowerLipDepressR", "Add", [⟨0, 0⟩, ⟨1, 1⟩]⟩,
  ⟨"CornerPullL_DimpleL", ["CTRL_expressions_mouthCornerPullL", "CTRL_expressions_mouthDimpleL"], "C_CornerPullL_DimpleL", "Add", [⟨0, 0⟩, ⟨1, 1⟩]⟩,
  ⟨"CornerPullR_DimpleR", ["CTRL_expressions_mouthCornerPullR", "CTRL_expressions_mouthDimpleR"], "C_CornerPullR_DimpleR", "Add", [⟨0, 0⟩, ⟨1, 1⟩]⟩,
  ⟨"CornerPullL_SharpCornerPullL", ["CTRL_expressions_mouthCornerPullL", "CTRL_expressions_mouthSharpCornerPullL"], "C_CornerPullL_SharpCornerPullL", "Add", [⟨0, 0⟩, ⟨1, (1/2)⟩]⟩,
  ⟨"CornerPullR_SharpCornerPullR", ["CTRL_expressions_mouthCornerPullR", "CTRL_expressions_mouthSharpCornerPullR"], "C_CornerPullR_SharpCornerPullR", "Add", [⟨0, 0⟩, ⟨1, (1/2)⟩]⟩,
  ⟨"FunnelUL_CornerPullL", ["CTRL_expressions_mouthCornerPullL", "CTRL_expressions_mouthFunnelUL"], "C_FunnelUL_CornerPullL", "Add", [⟨0, 0⟩, ⟨1, 1⟩]⟩,
  ⟨"FunnelUR_CornerPullR", ["CTRL_expressions_mouthCornerPullR", "CTRL_expressions_mouthFunnelUR"], "C_FunnelUR_CornerPullR", "Add", [⟨0, 0⟩, ⟨1, 1⟩]⟩,
  ⟨"FunnelDL_CornerPullL", ["CTRL_expressions_mouthCornerPullL", "CTRL_expressions_mouthFunnelDL"], "C_FunnelDL_CornerPullL", "Add", [⟨0, 0⟩, ⟨1, 1⟩]⟩,
  ⟨"FunnelDR_CornerPullR", ["CTRL_expressions_mouthCornerPullR", "CTRL_expressions_mouthFunnelDR"], "C_FunnelDR_CornerPullR", "Add", [⟨0, 0⟩, ⟨1, 1⟩]⟩,
  ⟨"LipsPurseUL_CornerPullL", ["CTRL_expressions_mouthCornerPullL", "CTRL_expressions_mouthLipsPurseUL"], "C_LipsPurseUL_CornerPullL", "Add", [⟨0, 0⟩, ⟨1, 1⟩]⟩,
  ⟨"LipsPurseUR_CornerPullR", ["CTRL_expressions_mouthCornerPullR", "CTRL_expressions_mouthLipsPurseUR"], "C_LipsPurseUR_CornerPullR", "Add", [⟨0, 0⟩, ⟨1, 1⟩]⟩
]

/-- Rules 49–64 of `METAHUMAN_TO_CC5_MAPPING`. -/
def MAPPING_PART_3 : List MappingRule := [
  ⟨"LipsPurseDL_CornerPullL", ["CTRL_expressions_mouthCornerPullL", "CTRL_expressions_mouthLipsPurseDL"], "C_LipsPurseDL_CornerPullL", "Add", [⟨0, 0⟩, ⟨1, 1⟩]⟩,
  ⟨"LipsPurseDR_CornerPullR", ["CTRL_expressions_mouthCornerPullR", "CTRL_expressions_mouthLipsPurseDR"], "C_LipsPurseDR_CornerPullR", "Add", [⟨0, 0⟩, ⟨1, 1⟩]⟩,
  ⟨"FunnelUL_LipsPurseUL_CornerPullL", ["CTRL_expressions_mouthCornerPullL", "CTRL_expressions_mouthLipsPurseUL", "CTRL_expressions_mouthFunnelUL"], "C_FunnelUL_LipsPurseUL_CornerPullL", "Add", [⟨0, 0⟩, ⟨1, 1⟩]⟩,
  ⟨"FunnelUR_LipsPurseUR_CornerPullR", ["CTRL_expressions_mouthCornerPullR", "CTRL_expressions_mouthLipsPurseUR", "CTRL_expressions_mouthFunnelUR"], "C_FunnelUR_LipsPurseUR_CornerPullR", "Add", [⟨0, 0⟩, ⟨1, 1⟩]⟩,
  ⟨"FunnelDL_LipsPurseDL_CornerPullL", ["CTRL_expressions_mouthCornerPullL", "CTRL_expressions_mouthLipsPurseDL", "CTRL_expressions_mouthFunnelDL"], "C_FunnelDL_LipsPurseDL_CornerPullL", "Add", [⟨0, 0⟩, ⟨1, 1⟩]⟩,
  ⟨"FunnelDR_LipsPurseDR_CornerPullR", ["CTRL_expressions_mouthCornerPullR", "CTRL_expressions_mouthLipsPurseDR", "CTRL_expressions_mouthFunnelDR"], "C_FunnelDR_LipsPurseDR_CornerPullR", "Add", [⟨0, 0⟩, ⟨1, 1⟩]⟩,
  ⟨"LipsPurseUL_FunnelUL", ["CTRL_expressions_mouthLipsPurseUL", "CTRL_expressions_mouthFunnelUL"], "C_LipsPurseUL_FunnelUL", "Add", [⟨0, 0⟩, ⟨1, 1⟩]⟩,
  ⟨"LipsPurseUR_FunnelUR", ["CTRL_expressions_mouthLipsPurseUR", "CTRL_expressions_mouthFunnelUR"], "C_LipsPurseUR_FunnelUR", "Add", [⟨0, 0⟩, ⟨1, 1⟩]⟩,
  ⟨"LipsPurseDL_FunnelDL", ["CTRL_expressions_mouthLipsPurseDL", "CTRL_expressions_mouthFunnelDL"], "C_LipsPurseDL_FunnelDL", "Add", [⟨0, 0⟩, ⟨1, 1⟩]⟩,
  ⟨"LipsPurseDR_FunnelDR", ["CTRL_expressions_mouthLipsPurseDR", "CTRL_expressions_mouthFunnelDR"], "C_LipsPurseDR_FunnelDR", "Add", [⟨0, 0⟩, ⟨1, 1⟩]⟩,
  ⟨"FunnelUL_ChinRaiseUL", ["CTRL_expressions_mouthFunnelUL", "CTRL_expressions_jawChinRaiseUL"], "C_FunnelUL_ChinRaiseUL", "Add", [⟨0, 0⟩, ⟨1, 1⟩]⟩,
  ⟨"FunnelUR_ChinRaiseUR", ["CTRL_expressions_mouthFunnelUR", "CTRL_expressions_jawChinRaiseUR"], "C_FunnelUR_ChinRaiseUR", "Add", [⟨0, 0⟩, ⟨1, 1⟩]⟩,
  ⟨"LipsPurseUL_LipsTowardsUL", ["CTRL_expressions_mouthLipsPurseUL", "CTRL_expressions_mouthLipsTowardsUL"], "C_LipsPurseUL_LipsTowardsUL", "Add", [⟨0, 0⟩, ⟨1, 1⟩]⟩,
  ⟨"LipsPurseUR_LipsTowardsUR", ["CTRL_expressions_mouthLipsPurseUR", "CTRL_expressions_mouthLipsTowardsUR"], "C_LipsPurseUR_LipsTowardsUR", "Add", [⟨0, 0⟩, ⟨1, 1⟩]⟩,
  ⟨"LipsPurseDL_LipsTowardsDL", ["CTRL_expressions_mouthLipsPurseDL", "CTRL_expressions_mouthLipsTowardsDL"], "C_LipsPurseDL_LipsTowardsDL", "Add", [⟨0, 0⟩, ⟨1, 1⟩]⟩,
  ⟨"LipsPurseDR_LipsTowardsDR", ["CTRL_expressions_mouthLipsPurseDR", "CTRL_expressions_mouthLipsTowardsDR"], "C_LipsPurseDR_LipsTowardsDR", "Add", [⟨0, 0⟩, ⟨1, 1⟩]⟩
]

/-- Rules 65–80 of `METAHUMAN_TO_CC5_MAPPING`. -/
def MAPPING_PART_4 : List MappingRule := [
  ⟨"LipsPurseUL_LipsTowardsUL_FunnelUL", ["CTRL_expressions_mouthLipsPurseUL", "CTRL_expressions_mouthLipsTowardsUL", "CTRL_expressions_mouthFunnelUL"], "C_LipsPurseUL_LipsTowardsUL_FunnelUL", "Add", [⟨0, 0⟩, ⟨1, 1⟩]⟩,
  ⟨"LipsPurseUR_LipsTowardsUR_FunnelUR", ["CTRL_expressions_mouthLipsPurseUR", "CTRL_expressions_mouthLipsTowardsUR", "CTRL_expressions_mouthFunnelUR"], "C_LipsPurseUR_LipsTowardsUR_FunnelUR", "Add", [⟨0, 0⟩, ⟨1, 1⟩]⟩,
  ⟨"LipsPurseDL_LipsTowardsDL_FunnelDL", ["CTRL_expressions_mouthLipsPurseDL", "CTRL_expressions_mouthLipsTowardsDL", "CTRL_expressions_mouthFunnelDL"], "C_LipsPurseDL_LipsTowardsDL_FunnelDL", "Add", [⟨0, 0⟩, ⟨1, 1⟩]⟩,
  ⟨"LipsPurseDR_LipsTowardsDR_FunnelDR", ["CTRL_expressions_mouthLipsPurseDR", "CTRL_expressions_mouthLipsTowardsDR", "CTRL_expressions_mouthFunnelDR"], "C_LipsPurseDR_LipsTowardsDR_FunnelDR", "Add", [⟨0, 0⟩, ⟨1, 1⟩]⟩,
  ⟨"LipsPurseUL_LipsTogetherUL", ["CTRL_expressions_mouthLipsPurseUL", "CTRL_expressions_mouthLipsTogetherUL"], "C_LipsPurseUL_LipsTogetherUL", "Add", [⟨0, 0⟩, ⟨1, (1/2)⟩]⟩,
  ⟨"LipsPurseUR_LipsTogetherUR", ["CTRL_expressions_mouthLipsPurseUR", "CTRL_expressions_mouthLipsTogetherUR"], "C_LipsPurseUR_LipsTogetherUR", "Add", [⟨0, 0⟩, ⟨1, (1/2)⟩]⟩,
  ⟨"LipsPurseDL_LipsTogetherDL", ["CTRL_expressions_mouthLipsPurseDL", "CTRL_expressions_mouthLipsTogetherDL"], "C_LipsPurseDL_LipsTogetherDL", "Add", [⟨0, 0⟩, ⟨1, (1/2)⟩]⟩,
  ⟨"LipsPurseDR_LipsTogetherDR", ["CTRL_expressions_mouthLipsPurseDR", "CTRL_expressions_mouthLipsTogetherDR"], "C_LipsPurseDR_LipsTogetherDR", "Add", [⟨0, 0⟩, ⟨1, (1/2)⟩]⟩,
  ⟨"FunnelUL_UpperLipRaiseL", ["CTRL_expressions_mouthFunnelUL", "CTRL_expressions_mouthUpperLipRaiseL"], "C_FunnelUL_UpperLipRaiseL", "Add", [⟨0, 0⟩, ⟨1, (1/2)⟩]⟩,
  ⟨"FunnelUR_UpperLipRaiseR", ["CTRL_expressions_mouthFunnelUR", "CTRL_expressions_mouthUpperLipRaiseR"], "C_FunnelUR_UpperLipRaiseR", "Add", [⟨0, 0⟩, ⟨1, (1/2)⟩]⟩,
  ⟨"FunnelDL_LowerLipDepressL", ["CTRL_expressions_mouthFunnelDL", "CTRL_expressions_mouthLowerLipDepressL"], "C_FunnelDL_LowerLipDepressL", "Add", [⟨0, 0⟩, ⟨1, (1/2)⟩]⟩,
  ⟨"FunnelDR_LowerLipDepressR", ["CTRL_expressions_mouthFunnelDR", "CTRL_expressions_mouthLowerLipDepressR"], "C_FunnelDR_LowerLipDepressR", "Add", [⟨0, 0⟩, ⟨1, (1/2)⟩]⟩,
  ⟨"FunnelUL_LipsTowardsUL", ["CTRL_expressions_mouthFunnelUL", "CTRL_expressions_mouthLipsTowardsUL"], "C_FunnelUL_LipsTowardsUL", "Add", [⟨0, 0⟩, ⟨1, 1⟩]⟩,
  ⟨"FunnelUR_LipsTowardsUR", ["CTRL_expressions_mouthFunnelUR", "CTRL_expressions_mouthLipsTowardsUR"], "C_FunnelUR_LipsTowardsUR", "Add", [⟨0, 0⟩, ⟨1, 1⟩]⟩,
  ⟨"FunnelDL_LipsTowardsDL", ["CTRL_expressions_mouthFunnelDL", "CTRL_expressions_mouthLipsTowardsDL"], "C_FunnelDL_LipsTowardsDL", "Add", [⟨0, 0⟩, ⟨1, 1⟩]⟩,
  ⟨"FunnelDR_LipsTowardsDR", ["CTRL_expressions_mouthFunnelDR", "CTRL_expressions_mouthLipsTowardsDR"], "C_FunnelDR_LipsTowardsDR", "Add", [⟨0, 0⟩, ⟨1, 1⟩]⟩
]

/-- Rules 81–96 of `METAHUMAN_TO_CC5_MAPPING`. -/
def MAPPING_PART_5 : List MappingRule := [
  ⟨"StretchL_LowerLipDepressL", ["CTRL_expressions_mouthStretchL", "CTRL_expressions_mouthLowerLipDepressL"], "C_StretchL_LowerLipDepressL", "Add", [⟨0, 0⟩, ⟨1, 1⟩]⟩,
  ⟨"StretchR_LowerLipDepressR", ["CTRL_expressions_mouthStretchR", "CTRL_expressions_mouthLowerLipDepressR"], "C_StretchR_LowerLipDepressR", "Add", [⟨0, 0⟩, ⟨1, 1⟩]⟩,
  ⟨"StretchL_StretchR", ["CTRL_expressions_mouthStretchL", "CTRL_expressions_mouthStretchR"], "C_StretchL_StretchR", "Add", [⟨0, 0⟩, ⟨1, 1⟩]⟩,
  ⟨"StretchL_LowerLipBite_L", ["CTRL_expressions_mouthStretchL", "CTRL_expressions_mouthLowerLipBiteL"], "C_StretchL_LowerLipBite_L", "Add", [⟨0, (-3497/1000000)⟩, ⟨1, 1⟩]⟩,
  ⟨"StretchR_LowerLipBite_R", ["CTRL_expressions_mouthStretchR", "CTRL_expressions_mouthLowerLipBiteR"], "C_StretchR_LowerLipBite_R", "Add", [⟨0, (-3497/1000000)⟩, ⟨1, 1⟩]⟩,
  ⟨"CornerPullL_JawOpen", ["CTRL_expressions_jawOpen", "CTRL_expressions_mouthCornerPullL"], "C_CornerPullL_JawOpen", "Add", [⟨0, 0⟩, ⟨1, 1⟩]⟩,
  ⟨"CornerPullR_JawOpen", ["CTRL_expressions_jawOpen", "CTRL_expressions_mouthCornerPullR"], "C_CornerPullR_JawOpen", "Add", [⟨0, 0⟩, ⟨1, 1⟩]⟩,
  ⟨"CornerPullL_JawOpen_LowerLipDepressL", ["CTRL_expressions_mouthCornerPullL", "CTRL_expressions_jawOpen", "CTRL_expressions_mouthLowerLipDepressL"], "C_CornerPullL_JawOpen_LowerLipDepressL", "Add", [⟨0, 0⟩, ⟨1, 1⟩]⟩,
  ⟨"CornerPullR_JawOpen_LowerLipDepressR", ["CTRL_expressions_mouthCornerPullR", "CTRL_expressions_jawOpen", "CTRL_expressions_mouthLowerLipDepressR"], "C_CornerPullR_JawOpen_LowerLipDepressR", "Add", [⟨0, 0⟩, ⟨1, 1⟩]⟩,
  ⟨"LipsPurseDL_JawOpen", ["CTRL_expressions_mouthLipsPurseDL", "CTRL_expressions_jawOpen"], "C_LipsPurseDL_JawOpen", "Add", [⟨0, 0⟩, ⟨1, (1/2)⟩]⟩,
  ⟨"LipsPurseDR_JawOpen", ["CTRL_expressions_mouthLipsPurseDR", "CTRL_expressions_jawOpen"], "C_LipsPurseDR_JawOpen", "Add", [⟨0, 0⟩, ⟨1, (1/2)⟩]⟩,
  ⟨"LipsPurseUL_JawOpen", ["CTRL_expressions_mouthLipsPurseUL", "CTRL_expressions_jawOpen"], "C_LipsPurseUL_JawOpen", "Add", [⟨0, 0⟩, ⟨1, (1/2)⟩]⟩,
  ⟨"LipsPurseUR_JawOpen", ["CTRL_expressions_mouthLipsPurseUR", "CTRL_expressions_jawOpen"], "C_LipsPurseUR_JawOpen", "Add", [⟨0, 0⟩, ⟨1, (1/2)⟩]⟩,
  ⟨"StretchL_LowerLipDepressL_JawOpen", ["CTRL_expressions_mouthStretchL", "CTRL_expressions_mouthLowerLipDepressL", "CTRL_expressions_jawOpen"], "C_StretchL_LowerLipDepressL_JawOpen", "Add", [⟨0, 0⟩, ⟨1, 1⟩]⟩,
  ⟨"StretchR_LowerLipDepressR_JawOpen", ["CTRL_expressions_mouthStretchR", "CTRL_expressions_mouthLowerLipDepressR", "CTRL_expressions_jawOpen"], "C_StretchR_LowerLipDepressR_JawOpen", "Add", [⟨0, 0⟩, ⟨1, 1⟩]⟩,
  ⟨"StretchL_JawOpen", ["CTRL_expressions_mouthStretchL", "CTRL_expressions_jawOpen"], "C_StretchL_JawOpen", "Add", [⟨0, 0⟩, ⟨1, 1⟩]⟩
]

/-- Rules 97–112 of `METAHUMAN_TO_CC5_MAPPING`. -/
def MAPPING_PART_6 : List MappingRule := [
  ⟨"StretchR_JawOpen", ["CTRL_expressions_mouthStretchR", "CTRL_expressions_jawOpen"], "C_StretchR_JawOpen", "Add", [⟨0, 0⟩, ⟨1, 1⟩]⟩,
  ⟨"LowerLipDepressL_LowerLipDepressR", ["CTRL_expressions_mouthLowerLipDepressL", "CTRL_expressions_mouthLowerLipDepressR"], "C_LowerLipDepressL_LowerLipDepressR", "Add", [⟨0, 0⟩, ⟨1, 1⟩]⟩,
  ⟨"UpperLipRaiseL_UpperLipRaiseR", ["CTRL_expressions_mouthUpperLipRaiseL", "CTRL_expressions_mouthUpperLipRaiseR"], "C_UpperLipRaiseL_UpperLipRaiseR", "Add", [⟨0, 0⟩, ⟨1, 1⟩]⟩,
  ⟨"CornerPullL_StretchL_JawOpen", ["CTRL_expressions_mouthCornerPullL", "CTRL_expressions_mouthStretchL", "CTRL_expressions_jawOpen"], "C_CornerPullL_StretchL_JawOpen", "Add", [⟨0, 0⟩, ⟨1, 1⟩]⟩,
  ⟨"CornerPullR_StretchR_JawOpen", ["CTRL_expressions_mouthCornerPullR", "CTRL_expressions_mouthStretchR", "CTRL_expressions_jawOpen"], "C_CornerPullR_StretchR_JawOpen", "Add", [⟨0, 0⟩, ⟨1, 1⟩]⟩,
  ⟨"CornerPullRL_StretchRL_JawOpen", ["CTRL_expressions_mouthCornerPullR", "CTRL_expressions_mouthStretchR", "CTRL_expressions_jawOpen", "CTRL_expressions_mouthStretchL", "CTRL_expressions_mouthCornerPullL"], "C_CornerPullRL_StretchRL_JawOpen", "Add", [⟨0, 0⟩, ⟨1, 1⟩]⟩,
  ⟨"CornerPullRL_StretchRL_JawOpen_LowerLipDepressRL", ["CTRL_expressions_mouthCornerPullR", "CTRL_expressions_mouthStretchR", "CTRL_expressions_jawOpen", "CTRL_expressions_mouthStretchL", "CTRL_expressions_mouthCornerPullL", "CTRL_expressions_mouthLowerLipDepressL", "CTRL_expressions_mouthLowerLipDepressR"], "C_CornerPullRL_StretchRL_JawOpen_LowerLipDepressRL", "Add", [⟨0, 0⟩, ⟨1, 1⟩]⟩,
  ⟨"UpperLipBiteL_JawOpen", ["CTRL_expressions_mouthUpperLipBiteL", "CTRL_expressions_jawOpen"], "C_UpperLipBiteL_JawOpen", "Add", [⟨0, 0⟩, ⟨1, 1⟩]⟩,
  ⟨"UpperLipBiteR_JawOpen", ["CTRL_expressions_mouthUpperLipBiteR", "CTRL_expressions_jawOpen"], "C_UpperLipBiteR_JawOpen", "Add", [⟨0, 0⟩, ⟨1, 1⟩]⟩,
  ⟨"LowerLipBiteL_JawOpen", ["CTRL_expressions_mouthLowerLipBiteL", "CTRL_expressions_jawOpen"], "C_LowerLipBiteL_JawOpen", "Add", [⟨0, 0⟩, ⟨1, 1⟩]⟩,
  ⟨"LowerLipBiteR_JawOpen", ["CTRL_expressions_mouthLowerLipBiteR", "CTRL_expressions_jawOpen"], "C_LowerLipBiteR_JawOpen", "Add", [⟨0, 0⟩, ⟨1, 1⟩]⟩,
  ⟨"PressUL_JawOpen", ["CTRL_expressions_mouthPressUL", "CTRL_expressions_jawOpen"], "C_PressUL_JawOpen", "Add", [⟨0, 0⟩, ⟨1, (1/2)⟩]⟩,
  ⟨"PressUR_JawOpen", ["CTRL_expressions_mouthPressUR", "CTRL_expressions_jawOpen"], "C_PressUR_JawOpen", "Add", [⟨0, 0⟩, ⟨1, (1/2)⟩]⟩,
  ⟨"PressDL_JawOpen", ["CTRL_expressions_mouthPressDL", "CTRL_expressions_jawOpen"], "C_PressDL_JawOpen", "Add", [⟨0, 0⟩, ⟨1, (1/2)⟩]⟩,
  ⟨"PressDR_JawOpen", ["CTRL_expressions_mouthPressDR", "CTRL_expressions_jawOpen"], "C_PressDR_JawOpen", "Add", [⟨0, 0⟩, ⟨1, (1/2)⟩]⟩,
  ⟨"DimpleL_UpperLipRaiseL", ["CTRL_expressions_mouthDimpleL", "CTRL_expressions_mouthUpperLipRaiseL"], "C_DimpleL_UpperLipRaiseL", "Add", [⟨0, (-3497/1000000)⟩, ⟨1, 1⟩]⟩
]

/-- Rules 113–128 of `METAHUMAN_TO_CC5_MAPPING`. -/
def MAPPING_PART_7 : List MappingRule := [
  ⟨"DimpleR_UpperLipRaiseR", ["CTRL_expressions_mouthDimpleR", "CTRL_expressions_mouthUpperLipRaiseR"], "C_DimpleR_UpperLipRaiseR", "Add", [⟨0, (-3497/1000000)⟩, ⟨1, 1⟩]⟩,
  ⟨"DimpleL_LowerLipDepressL", ["CTRL_expressions_mouthDimpleL", "CTRL_expressions_mouthLowerLipDepressL"], "C_DimpleL_LowerLipDepressL", "Add", [⟨0, 0⟩, ⟨1, 1⟩]⟩,
  ⟨"DimpleR_LowerLipDepressR", ["CTRL_expressions_mouthDimpleR", "CTRL_expressions_mouthLowerLipDepressR"], "C_DimpleR_LowerLipDepressR", "Add", [⟨0, 0⟩, ⟨1, 1⟩]⟩,
  ⟨"DimpleL_JawOpen", ["CTRL_expressions_jawOpen", "CTRL_expressions_mouthDimpleL"], "C_DimpleL_JawOpen", "Add", [⟨0, 0⟩, ⟨1, 1⟩]⟩,
  ⟨"DimpleR_JawOpen", ["CTRL_expressions_jawOpen", "CTRL_expressions_mouthDimpleR"], "C_DimpleR_JawOpen", "Add", [⟨0, 0⟩, ⟨1, 1⟩]⟩,
  ⟨"EyeLidPress_Blink_L", ["CTRL_expressions_eyeBlinkL"], "CTRL_expressions_eyeLidPressL", "Limit", [⟨0, 0⟩, ⟨1, 1⟩]⟩,
  ⟨"EyeLidPress_Blink_R", ["CTRL_expressions_eyeBlinkR"], "CTRL_expressions_eyeLidPressR", "Limit", [⟨0, 0⟩, ⟨1, 1⟩]⟩,
  ⟨"NoseWinkleUpper_L", ["CTRL_expressions_noseWrinkleL"], "CTRL_expressions_noseWrinkleUpperL", "Limit", [⟨0, 0⟩, ⟨1, 1⟩]⟩,
  ⟨"NoseWinkleUpper_R", ["CTRL_expressions_noseWrinkleR"], "CTRL_expressions_noseWrinkleUpperR", "Limit", [⟨0, 0⟩, ⟨1, 1⟩]⟩,
  ⟨"MouthStretchLipClose_Stretch_L", ["CTRL_expressions_mouthStretchL"], "CTRL_expressions_mouthStretchLipsCloseL", "Limit", [⟨0, 0⟩, ⟨1, 1⟩]⟩,
  ⟨"MouthStretchLipClose_Stretch_R", ["CTRL_expressions_mouthStretchR"], "CTRL_expressions_mouthStretchLipsCloseR", "Limit", [⟨0, 0⟩, ⟨1, 1⟩]⟩,
  ⟨"JawOpenExtreme_JawOpen", ["CTRL_expressions_jawOpen"], "CTRL_expressions_jawOpenExtreme", "Limit", [⟨0, 0⟩, ⟨1, 1⟩]⟩,
  ⟨"MouthLipsTogetherUL_JawOpen", ["CTRL_expressions_jawOpen"], "CTRL_expressions_mouthLipsTogetherUL", "Limit", [⟨0, 0⟩, ⟨1, 1⟩]⟩,
  ⟨"MouthLipsTogetherUR_JawOpen", ["CTRL_expressions_jawOpen"], "CTRL_expressions_mouthLipsTogetherUR", "Limit", [⟨0, 0⟩, ⟨1, 1⟩]⟩,
  ⟨"MouthLipsTogetherDL_JawOpen", ["CTRL_expressions_jawOpen"], "CTRL_expressions_mouthLipsTogetherDL", "Limit", [⟨0, 0⟩, ⟨1, 1⟩]⟩,
  ⟨"MouthLipsTogetherDR_JawOpen", ["CTRL_expressions_jawOpen"], "CTRL_expressions_mouthLipsTogetherDR", "Limit", [⟨0, 0⟩, ⟨1, 1⟩]⟩
]

/-- The full combination table `METAHUMAN_TO_CC5_MAPPING` (128 rules, transcribed from `metahumanToCC5.js`). -/
def METAHUMAN_TO_CC5_MAPPING : List MappingRule :=
  MAPPING_PART_0 ++ MAPPING_PART_1 ++ MAPPING_PART_2 ++ MAPPING_PART_3 ++ MAPPING_PART_4 ++ MAPPING_PART_5 ++ MAPPING_PART_6 ++ MAPPING_PART_7

/-- `convertMetaHumanToCC5(metahumanBlendshapes, options)`: run the mapping
pass, then add the teeth-visibility offset (source default `teethDownOffset = 0`)
to the two corrective targets. -/
def convertMetaHumanToCC5 (frame : Frame) (teethDownOffset : ℚ := 0) :
    List (String × ℚ) :=
  teethCorrectives.foldl (applyTeethOffset teethDownOffset)
    (mappingPass METAHUMAN_TO_CC5_MAPPING frame)

/-- The all-zero (empty) input frame. -/
def zeroFrame : Frame := fun _ => none

/-! ## Playback scheduler (`useMetahumanLipsync` tick) -/

/-- `const TARGET_FPS = 60`. -/
def TARGET_FPS : ℚ := 60

/-- `const FRAME_OFFSET = 15`. -/
def FRAME_OFFSET : ℚ := 15

/-- `ANIMATION_CONFIG.LIPSYNC_FADE_IN_DURATION = 0.3` (seconds). -/
def LIPSYNC_FADE_IN_DURATION : ℚ := 3/10

/-- `Math.min` on integer-valued indices. -/
def intMin (a b : ℤ) : ℤ := if a ≤ b then a else b

theorem intMin_eq_min (a b : ℤ) : intMin a b = min a b := (min_def a b).symm

/-- The per-tick frame index:
`min(Math.floor(elapsedSec * TARGET_FPS + FRAME_OFFSET), frames.length - 1)`
with `elapsedSec = (now - startTime) / 1000`. -/
def tickFrameIndex (startTime now : ℚ) (numFrames : ℕ) : ℤ :=
  intMin ⌊(now - startTime) / 1000 * TARGET_FPS + FRAME_OFFSET⌋ ((numFrames : ℤ) - 1)

/-- A frame held in the blendshape queue, as far as the validity check
inspects it: an array with its length, an object with its number of own
keys, or a nullish value. -/
inductive FrameData
  | nullish
  | arr (length : ℕ)
  | obj (keys : ℕ)
deriving DecidableEq, Repr

/-- The frame validation of the tick:
`currentFrame && ((Array.isArray(currentFrame) && currentFrame.length > 0) ||
(typeof currentFrame === "object" && Object.keys(currentFrame).length > 0))`. -/
def frameValid : FrameData → Bool
  | .nullish => false
  | .arr length => decide (0 < length)
  | .obj keys => decide (0 < keys)

/-- The mutable playback state of the lipsync hook
(`playbackStateRef.current`). -/
structure PlaybackState where
  isPlaying : Bool
  isDraining : Bool
  startTime : ℚ
  currentFrameIndex : ℕ
  fadeInWeight : ℚ
deriving DecidableEq, Repr

/-- What a single tick did, mirroring the early returns of the `useFrame`
body. -/
inductive TickAction
  | noQueue
  | notPlaying
  | drainStop
  | waitForFrames
  | endReached
  | invalidIndex
  | skipInvalidFrame
  | applyFrame
deriving DecidableEq, Repr

/-- One tick of the playback scheduler (the `useFrame` body restricted to
the playback state): resolve the queue, bail out when not playing, handle
an empty queue and drain-end, compute the fade-in weight and the frame
index, validate the fetched frame, and record the applied index. -/
def tick (hasQueue : Bool) (s : PlaybackState) (frames : List FrameData)
    (now : ℚ) : PlaybackState × TickAction :=
  if hasQueue = false then (s, .noQueue)
  else if s.isPlaying = false then (s, .notPlaying)
  else if frames.length = 0 then
    if s.isDraining then
      ({ s with isPlaying := false, isDraining := false, currentFrameIndex := 0 },
        .drainStop)
    else (s, .waitForFrames)
  else
    let elapsedTimeSec := (now - s.startTime) / 1000
    let s1 := { s with fadeInWeight := jsMin 1 (elapsedTimeSec / LIPSYNC_FADE_IN_DURATION) }
    let frameIndex := tickFrameIndex s.startTime now frames.length
    if (frames.length : ℤ) - 1 ≤ frameIndex ∧ s1.isDraining = true then
      ({ s1 with isPlaying := false, isDraining := false, currentFrameIndex := 0 },
        .endReached)
    else if frameIndex < 0 ∨ (frames.length : ℤ) ≤ frameIndex then
      (s1, .invalidIndex)
    else if frameValid (frames.getD frameIndex.toNat .nullish) = false then
      (s1, .skipInvalidFrame)
    else
      ({ s1 with currentFrameIndex := frameIndex.toNat }, .applyFrame)

/-! ## The per-channel smoother (`applyMorphValueSmooth`) -/

/-- `applyMorphValueSmooth(morphCache, smoothedValues, name, targetValue,
lerpSpeed)`: when the morph cache has targets for `name`, read the previous
smoothed value (`|| 0`), lerp towards the target, store the result and
emit it; otherwise do nothing.  Returns the updated state and the emitted
value. -/
def applyMorphValueSmooth (hasTargets : Bool) (smoothedValues : String → Option ℚ)
    (name : String) (targetValue lerpSpeed : ℚ) :
    (String → Option ℚ) × Option ℚ :=
  if hasTargets = false then (smoothedValues, none)
  else
    let currentValue := (smoothedValues name).getD 0
    let newValue := currentValue + (targetValue - currentValue) * lerpSpeed
    (fun n => if n = name then some newValue else smoothedValues n, some newValue)

/-- The smoother state after `n` repeated calls for channel `name` with a
constant target and rate, starting from the empty state. -/
def smoothState (name : String) (targetValue lerpSpeed : ℚ) : ℕ → (String → Option ℚ)
  | 0 => fun _ => none
  | n + 1 =>
    (applyMorphValueSmooth true (smoothState name targetValue lerpSpeed n)
      name targetValue lerpSpeed).1

/-- The smoothed-value sequence: `0` initially, then
`previous + (target - previous) * rate` at each call. -/
def smoothSeq (targetValue lerpSpeed : ℚ) : ℕ → ℚ
  | 0 => 0
  | n + 1 =>
    smoothSeq targetValue lerpSpeed n
      + (targetValue - smoothSeq targetValue lerpSpeed n) * lerpSpeed

/-! ## Jaw bone rotation -/

/-- `JAW_CONFIG` from `convaiConfig.js`. -/
structure JawConfig where
  CLOSED_ROTATION_DEG : ℚ
  MAX_OPEN_ROTATION_DEG : ℚ
  CLOSED_ROTATION : ℚ
  MAX_OPEN_ROTATION : ℚ
  ROTATION_RANGE : ℚ
deriving DecidableEq, Repr

/-- The configured jaw rotation values: 90° closed, 115° fully open
(`1.5708` and `2.0071` rad), range `0.4363` rad. -/
def JAW_CONFIG : JawConfig :=
  { CLOSED_ROTATION_DEG := 90
    MAX_OPEN_ROTATION_DEG := 115
    CLOSED_ROTATION := 15708/10000
    MAX_OPEN_ROTATION := 20071/10000
    ROTATION_RANGE := 4363/10000 }

/-- `jawValueToRotation(jawBaseRotationZ, jawValue)` (corrective playback
path): clamp the jaw value to `[0,1]` and map it linearly onto
`CLOSED_ROTATION + clamped * ROTATION_RANGE`.  The base-rotation argument
is unused, exactly as in the source. -/
def jawValueToRotation (jawBaseRotationZ jawValue : ℚ) : ℚ :=
  let clampedValue := jsMax 0 (jsMin 1 jawValue)
  JAW_CONFIG.CLOSED_ROTATION + clampedValue * JAW_CONFIG.ROTATION_RANGE

/-! ## The morph write loop of `applyMetaHumanToCC5` -/

/-- Substring containment, the embedding of `String.prototype.includes`. -/
def containsSub (s sub : String) : Bool :=
  s.toList.tails.any fun t => sub.toList.isPrefixOf t

/-- `morphName.includes("JawOpen") || morphName.includes("Jaw_Open")`. -/
def isJawOpenMorph (morphName : String) : Bool :=
  containsSub morphName "JawOpen" || containsSub morphName "Jaw_Open"

/-- The write loop of `applyMetaHumanToCC5` over the entries of the
converted CC5 values: skip jaw-open morphs, skip near-zero values with no
existing smoothed value, keep everything else (those get passed to
`applyMorphValueSmooth`). -/
def morphWriteFilter (cc5Values : List (String × ℚ)) (hasExisting : String → Bool) :
    List (String × ℚ) :=
  cc5Values.filter fun p =>
    !(isJawOpenMorph p.1) && !(decide (p.2 < 1/1000) && !(hasExisting p.1))

/-- The morph-target writes performed by `applyMetaHumanToCC5` for a given
assembled `metahumanBlendshapes` input: the write loop applied to
`convertMetaHumanToCC5(metahumanBlendshapes)`.  The jaw-bone argument only
affects the bone rotation after the loop, not the morph writes. -/
def applyMetaHumanToCC5Writes (frame : Frame) (hasExisting : String → Bool)
    (jawBone : Bool) : List (String × ℚ) :=
  morphWriteFilter (convertMetaHumanToCC5 frame) hasExisting

/-! ## Lookup lemmas for the accumulated blendshape object -/

theorem objGet_append (l1 l2 : List (String × ℚ)) (key : String) :
    objGet (l1 ++ l2) key = (objGet l1 key).or (objGet l2 key) := by
  induction l1 with
  | nil => simp [objGet]
  | cons a t ih =>
    obtain ⟨k, v⟩ := a
    by_cases h : k = key <;> simp [objGet, h, ih]

theorem objGet_mapUpdate (l : List (String × ℚ)) (k : String) (f : ℚ → ℚ)
    (key : String) :
    objGet (l.map fun p => if p.1 = k then (p.1, f p.2) else p) key =
      if key = k then (objGet l key).map f else objGet l key := by
  induction l with
  | nil => simp [objGet]
  | cons a t ih =>
    obtain ⟨k1, v⟩ := a
    simp only [List.map_cons]
    by_cases h1 : k1 = k
    · subst h1
      rw [if_pos rfl]
      by_cases h2 : key = k1
      · subst h2
        simp [objGet, ih]
      · have h2' : ¬k1 = key := fun hc => h2 hc.symm
        simp [objGet, h2, h2', ih]
    · rw [if_neg h1]
      by_cases h2 : k1 = key
      · subst h2
        have hkk : ¬k1 = k := h1
        simp [objGet, hkk, ih]
      · simp [objGet, h2, ih]

theorem objGet_writeMul (obj : List (String × ℚ)) (k : String) (v : ℚ)
    (key : String) :
    objGet (writeMul obj k v) key =
      if key = k then some ((objGet obj k).getD 1 * v) else objGet obj key := by
  unfold writeMul
  cases h : objGet obj k with
  | none =>
    rw [objGet_append]
    by_cases hk : key = k
    · simp [objGet, hk, h]
    · have hk' : ¬k = key := fun hc => hk hc.symm
      simp [objGet, hk, hk']
  | some w =>
    have hmu := objGet_mapUpdate obj k (fun w => w * v) key
    rw [hmu]
    by_cases hk : key = k <;> simp [hk, h]

theorem objGet_applyTeethOffset (off : ℚ) (obj : List (String × ℚ))
    (k key : String) :
    objGet (applyTeethOffset off obj k) key =
      if key = k then
        some (match objGet obj k with
          | some w => jsMin 1 (w + off)
          | none => off)
      else objGet obj key := by
  unfold applyTeethOffset
  cases h : objGet obj k with
  | none =>
    rw [objGet_append]
    by_cases hk : key = k
    · simp [objGet, hk, h]
    · have hk' : ¬k = key := fun hc => hk hc.symm
      simp [objGet, hk, hk']
  | some w =>
    have hmu := objGet_mapUpdate obj k (fun w => jsMin 1 (w + off)) key
    rw [hmu]
    by_cases hk : key = k <;> simp [hk, h]

/-! ## Characterizing the mapping pass: products of contributions -/

/-- The product of the curve-evaluated contributions of all rules writing
to target `T` (the first writer sets the value, later writers multiply
in). -/
def contribProd (rules : List MappingRule) (frame : Frame) (T : String) : ℚ :=
  ((rules.filter fun r => r.target == T).map (contribution frame)).prod

theorem contribProd_nil (frame : Frame) (T : String) :
    contribProd [] frame T = 1 := rfl

theorem contribProd_cons (r : MappingRule) (rs : List MappingRule)
    (frame : Frame) (T : String) :
    contribProd (r :: rs) frame T =
      if r.target = T then contribution frame r * contribProd rs frame T
      else contribProd rs frame T := by
  simp only [contribProd, List.filter_cons]
  by_cases h : r.target = T <;> simp [h]

theorem objGet_foldlPass_some (frame : Frame) (rules : List MappingRule)
    (obj : List (String × ℚ)) (T : String) (w : ℚ)
    (h : objGet obj T = some w) :
    objGet (rules.foldl (fun o r => writeMul o r.target (contribution frame r)) obj) T
      = some (w * contribProd rules frame T) := by
  induction rules generalizing obj w with
  | nil => simpa [contribProd_nil] using h
  | cons r rs ih =>
    simp only [List.foldl_cons]
    rw [contribProd_cons]
    by_cases hr : r.target = T
    · have hstep : objGet (writeMul obj r.target (contribution frame r)) T
          = some (w * contribution frame r) := by
        rw [objGet_writeMul]
        simp [hr, h]
      rw [ih _ _ hstep, hr]
      simp [mul_assoc]
    · have hstep : objGet (writeMul obj r.target (contribution frame r)) T
          = some w := by
        rw [objGet_writeMul]
        have : ¬T = r.target := fun hc => hr hc.symm
        simp [this, h]
      rw [ih _ _ hstep]
      simp [hr]

theorem objGet_foldlPass_none (frame : Frame) (rules : List MappingRule)
    (obj : List (String × ℚ)) (T : String)
    (h : objGet obj T = none) :
    objGet (rules.foldl (fun o r => writeMul o r.target (contribution frame r)) obj) T
      = if rules.any (fun r => r.target == T) then some (contribProd rules frame T)
        else none := by
  induction rules generalizing obj with
  | nil => simpa using h
  | cons r rs ih =>
    simp only [List.foldl_cons, List.any_cons]
    rw [contribProd_cons]
    by_cases hr : r.target = T
    · have hstep : objGet (writeMul obj r.target (contribution frame r)) T
          = some (contribution frame r) := by
        rw [objGet_writeMul]
        simp [hr, h]
      rw [objGet_foldlPass_some frame rs _ _ _ hstep]
      simp [hr]
    · have hstep : objGet (writeMul obj r.target (contribution frame r)) T
          = none := by
        rw [objGet_writeMul]
        have : ¬T = r.target := fun hc => hr hc.symm
        simp [this, h]
      rw [ih _ hstep]
      have : (r.target == T) = false := by simpa using hr
      simp [this, hr]

/-- The value of target `T` after the mapping pass is the product of the
contributions of the rules targeting `T` (or absent when no rule does). -/
theorem objGet_mappingPass (rules : List MappingRule) (frame : Frame) (T : String) :
    objGet (mappingPass rules frame) T =
      if rules.any (fun r => r.target == T) then some (contribProd rules frame T)
      else none :=
  objGet_foldlPass_none frame rules [] T rfl

/-! ## Range and evaluation lemmas for `evaluateCurve` -/

theorem lerp_bounds (a b t lo hi : ℚ) (ha : lo ≤ a ∧ a ≤ hi) (hb : lo ≤ b ∧ b ≤ hi)
    (ht0 : 0 ≤ t) (ht1 : t ≤ 1) :
    lo ≤ a + (b - a) * t ∧ a + (b - a) * t ≤ hi := by
  constructor
  · nlinarith [mul_nonneg (sub_nonneg.mpr ha.1) (sub_nonneg.mpr ht1),
      mul_nonneg (sub_nonneg.mpr hb.1) ht0]
  · nlinarith [mul_nonneg (sub_nonneg.mpr ha.2) (sub_nonneg.mpr ht1),
      mul_nonneg (sub_nonneg.mpr hb.2) ht0]

/-- Whatever the input, `evaluateCurve` on a non-empty curve returns either
a key value or a convex combination of two key values, so it stays within
any interval containing all key values. -/
theorem evaluateCurve_bounds (keys : List CurveKey) (x lo hi : ℚ)
    (hne : keys ≠ []) (hk : ∀ k ∈ keys, lo ≤ k.value ∧ k.value ≤ hi) :
    lo ≤ evaluateCurve keys x ∧ evaluateCurve keys x ≤ hi := by
  match keys, hne with
  | k0 :: rest, _ =>
    simp only [evaluateCurve]
    set x1 := jsMax 0 (jsMin 1 x) with hx1
    set kl := rest.getLastD k0 with hkl
    have hklmem : kl ∈ k0 :: rest := List.getLastD_mem_cons rest k0
    have hk0mem : k0 ∈ k0 :: rest := List.mem_cons_self _ _
    by_cases h1 : x1 ≤ k0.time
    · rw [if_pos h1]
      exact hk k0 hk0mem
    rw [if_neg h1]
    by_cases h2 : kl.time ≤ x1
    · rw [if_pos h2]
      exact hk kl hklmem
    rw [if_neg h2]
    cases hfb : findBracket (k0 :: rest) x1 with
    | some pr =>
      obtain ⟨pa, pb⟩ := pr
      have hpred := List.find?_some hfb
      have hmem := List.mem_of_find?_eq_some hfb
      have hmem2 := List.of_mem_zip hmem
      have hpa : pa ∈ k0 :: rest := hmem2.1
      have hpb : pb ∈ k0 :: rest := by
        have : pb ∈ (k0 :: rest).tail := hmem2.2
        exact List.mem_of_mem_tail this
      simp only [Bool.and_eq_true, decide_eq_true_eq] at hpred
      simp only [Option.getD_some]
      by_cases hd : pb.time - pa.time = 0
      · rw [if_pos hd]
        exact hk pa hpa
      · rw [if_neg hd]
        have hdpos : 0 < pb.time - pa.time := by
          rcases lt_or_eq_of_le (by linarith [hpred.1, hpred.2] :
            (0 : ℚ) ≤ pb.time - pa.time) with h | h
          · exact h
          · exact absurd h.symm hd
        have ht0 : 0 ≤ (x1 - pa.time) / (pb.time - pa.time) :=
          div_nonneg (by linarith [hpred.1]) hdpos.le
        have ht1 : (x1 - pa.time) / (pb.time - pa.time) ≤ 1 := by
          rw [div_le_one hdpos]
          linarith [hpred.2]
        exact lerp_bounds _ _ _ _ _ (hk pa hpa) (hk pb hpb) ht0 ht1
    | none =>
      simp only [Option.getD_none]
      have hlt0 : k0.time < x1 := lt_of_not_ge h1
      have hlt1 : x1 < kl.time := lt_of_not_ge h2
      by_cases hd : kl.time - k0.time = 0
      · rw [if_pos hd]
        exact hk k0 hk0mem
      · rw [if_neg hd]
        have hdpos : 0 < kl.time - k0.time := by linarith
        have ht0 : 0 ≤ (x1 - k0.time) / (kl.time - k0.time) :=
          div_nonneg (by linarith) hdpos.le
        have ht1 : (x1 - k0.time) / (kl.time - k0.time) ≤ 1 := by
          rw [div_le_one hdpos]
          linarith
        exact lerp_bounds _ _ _ _ _ (hk k0 hk0mem) (hk kl hklmem) ht0 ht1

/-- The identity curve `[{0,0},{1,1}]` passes values in `[0,1]` through
unchanged. -/
theorem evaluateCurve_identity (a : ℚ) (h0 : 0 ≤ a) (h1 : a ≤ 1) :
    evaluateCurve [⟨0, 0⟩, ⟨1, 1⟩] a = a := by
  simp only [evaluateCurve]
  have hx : jsMax 0 (jsMin 1 a) = a := by
    unfold jsMax jsMin
    split_ifs <;> linarith
  rw [hx]
  rw [show ([⟨1, 1⟩] : List CurveKey).getLastD ⟨0, 0⟩ = ⟨1, 1⟩ from rfl]
  by_cases ha0 : a ≤ (⟨0, 0⟩ : CurveKey).time
  · rw [if_pos ha0]
    have : a = 0 := le_antisymm (by simpa using ha0) h0
    simp [this]
  rw [if_neg ha0]
  by_cases ha1 : (⟨1, 1⟩ : CurveKey).time ≤ a
  · rw [if_pos ha1]
    have : a = 1 := le_antisymm h1 (by simpa using ha1)
    simp [this]
  rw [if_neg ha1]
  have hfb : findBracket [⟨0, 0⟩, ⟨1, 1⟩] a = some (⟨0, 0⟩, ⟨1, 1⟩) := by
    simp only [findBracket, List.zip, List.zipWith, List.find?]
    have hb1 : decide ((⟨0, 0⟩ : CurveKey).time ≤ a) = true := by
      simp only [decide_eq_true_eq]
      exact h0
    have hb2 : decide (a ≤ (⟨1, 1⟩ : CurveKey).time) = true := by
      simp only [decide_eq_true_eq]
      exact h1
    simp [hb1, hb2]
  rw [hfb]
  norm_num

/-! ## Rule-combination algebra -/

theorem foldl_mul_eq_prod (f : String → ℚ) :
    ∀ (l : List String) (init : ℚ),
      l.foldl (fun p s => p * f s) init = init * (l.map f).prod := by
  intro l
  induction l with
  | nil => intro init; simp
  | cons s t ih =>
    intro init
    simp only [List.foldl_cons, List.map_cons, List.prod_cons]
    rw [ih]
    ring

/-- The curve guard of `convertMetaHumanToCC5` is equivalent to always
applying `evaluateCurve` (which passes values through on an empty curve). -/
theorem contribution_eq (frame : Frame) (r : MappingRule) :
    contribution frame r = evaluateCurve r.curve (ruleValue frame r) := by
  unfold contribution
  by_cases h : r.curve = []
  · simp [h, evaluateCurve]
  · simp [h]

theorem ruleValue_add (frame : Frame) (r : MappingRule) (h : r.mode = "Add") :
    ruleValue frame r = (r.source.map (lookup0 frame)).prod := by
  unfold ruleValue
  rw [if_pos h, foldl_mul_eq_prod, one_mul]

/-- An `Add` rule contributes its curve evaluated at the product of all its
(looked-up, zero-defaulted) source values. -/
theorem contribution_add (frame : Frame) (r : MappingRule) (h : r.mode = "Add") :
    contribution frame r
      = evaluateCurve r.curve ((r.source.map (lookup0 frame)).prod) := by
  rw [contribution_eq, ruleValue_add frame r h]

theorem ruleValue_limit_single (frame : Frame) (r : MappingRule) (s : String)
    (hm : r.mode = "Limit") (hs : r.source = [s]) :
    ruleValue frame r = lookup0 frame s := by
  simp [ruleValue, hm, hs]

theorem ruleValue_limit_multi (frame : Frame) (r : MappingRule)
    (l s2 : String) (rest : List String)
    (hm : r.mode = "Limit") (hs : r.source = l :: s2 :: rest) :
    ruleValue frame r
      = (s2 :: rest).foldl
          (fun p k => p * jsMin (lookup0 frame l) (lookup0 frame k)) 1 := by
  simp [ruleValue, hm, hs]

/-- Two rules writing to the same target: the first sets its contribution,
the second multiplies in. -/
theorem mappingPass_pair (r1 r2 : MappingRule) (frame : Frame)
    (h : r2.target = r1.target) :
    objGet (mappingPass [r1, r2] frame) r1.target
      = some (contribution frame r1 * contribution frame r2) := by
  rw [objGet_mappingPass]
  simp [contribProd, List.filter_cons, h]

/-! ## Concrete instances for the combination claims -/

/-- The first mapping rule of the table (2-source `Add`, identity curve). -/
def nwRule : MappingRule :=
  ⟨"NoseWrinkleL_BrowDownL",
    ["CTRL_expressions_noseWrinkleL", "CTRL_expressions_browDownL"],
    "C_NoseWrinkleL_BrowDownL", "Add", [⟨0, 0⟩, ⟨1, 1⟩]⟩

/-- A frame feeding `0.7` into both sources of `nwRule`. -/
def frame07 : Frame := fun s =>
  if s = "CTRL_expressions_noseWrinkleL" ∨ s = "CTRL_expressions_browDownL"
  then some (7/10) else none

/-- A generic 1-source `Add` rule targeting `X` (identity curve). -/
def addRuleX1 : MappingRule := ⟨"RuleA", ["srcA"], "X", "Add", [⟨0, 0⟩, ⟨1, 1⟩]⟩

/-- A second generic 1-source `Add` rule targeting the same `X`. -/
def addRuleX2 : MappingRule := ⟨"RuleB", ["srcB"], "X", "Add", [⟨0, 0⟩, ⟨1, 1⟩]⟩

/-- A frame with value `a` on `srcA` and `b` on `srcB`. -/
def frameAB (a b : ℚ) : Frame := fun s =>
  if s = "srcA" then some a else if s = "srcB" then some b else none

theorem contribution_nwRule : contribution frame07 nwRule = 49/100 := by
  rw [contribution_add frame07 nwRule rfl]
  have hprod : ((nwRule.source).map (lookup0 frame07)).prod = 49/100 := by
    show ((["CTRL_expressions_noseWrinkleL", "CTRL_expressions_browDownL"]).map
      (lookup0 frame07)).prod = 49/100
    simp only [List.map_cons, List.map_nil, List.prod_cons, List.prod_nil]
    have h1 : lookup0 frame07 "CTRL_expressions_noseWrinkleL" = 7/10 := by
      simp [lookup0, frame07]
    have h2 : lookup0 frame07 "CTRL_expressions_browDownL" = 7/10 := by
      simp [lookup0, frame07]
    rw [h1, h2]
    norm_num
  rw [hprod]
  rw [show nwRule.curve = [⟨0, 0⟩, ⟨1, 1⟩] from rfl]
  rw [evaluateCurve_identity _ (by norm_num) (by norm_num)]

/-- C1: for every `Add`-mode rule of `METAHUMAN_TO_CC5_MAPPING` and every
input frame, the rule's contribution is its curve evaluated at the product
of all listed source values (absent sources counting as `0` via
`lookup0`); the final value of any targeted channel is the product of the
contributions of all rules sharing that target (multiplicative, not
additive and not a maximum); in particular the 2-source identity-curve
rule `NoseWrinkleL_BrowDownL` fed `0.7`/`0.7` yields `0.49` before the
teeth-offset post-processing, and two identity-curve rules targeting `X`
with per-rule results `a` and `b` yield `X = a * b`. -/
theorem spec_C1 (frame : Frame) (T : String) (a b : ℚ)
    (hT : ∃ r ∈ METAHUMAN_TO_CC5_MAPPING, r.target = T)
    (ha0 : 0 ≤ a) (ha1 : a ≤ 1) (hb0 : 0 ≤ b) (hb1 : b ≤ 1) :
    (∀ r ∈ METAHUMAN_TO_CC5_MAPPING, r.mode = "Add" →
        contribution frame r
          = evaluateCurve r.curve ((r.source.map (lookup0 frame)).prod))
    ∧ objGet (mappingPass METAHUMAN_TO_CC5_MAPPING frame) T
        = some (contribProd METAHUMAN_TO_CC5_MAPPING frame T)
    ∧ objGet (mappingPass METAHUMAN_TO_CC5_MAPPING frame07) "C_NoseWrinkleL_BrowDownL"
        = some (49/100)
    ∧ objGet (mappingPass [addRuleX1, addRuleX2] (frameAB a b)) "X"
        = some (a * b) := by
  refine ⟨fun r _ hmode => contribution_add frame r hmode, ?_, ?_, ?_⟩
  · rw [objGet_mappingPass]
    have hany : (METAHUMAN_TO_CC5_MAPPING.any fun r => r.target == T) = true := by
      rw [List.any_eq_true]
      obtain ⟨r, hr, hrt⟩ := hT
      exact ⟨r, hr, by simpa using hrt⟩
    simp [hany]
  · rw [objGet_mappingPass]
    rw [show (METAHUMAN_TO_CC5_MAPPING.any
        fun r => r.target == "C_NoseWrinkleL_BrowDownL") = true from rfl]
    have hfil : METAHUMAN_TO_CC5_MAPPING.filter
        (fun r => r.target == "C_NoseWrinkleL_BrowDownL") = [nwRule] := by rfl
    simp only [if_true, contribProd, hfil, List.map_cons, List.map_nil,
      List.prod_cons, List.prod_nil, mul_one, contribution_nwRule]
  · have hX : addRuleX2.target = addRuleX1.target := rfl
    have hpair := mappingPass_pair addRuleX1 addRuleX2 (frameAB a b) hX
    rw [show addRuleX1.target = "X" from rfl] at hpair
    rw [hpair]
    have hc1 : contribution (frameAB a b) addRuleX1 = a := by
      rw [contribution_add _ _ rfl]
      rw [show addRuleX1.source = ["srcA"] from rfl]
      simp only [List.map_cons, List.map_nil, List.prod_cons, List.prod_nil, mul_one]
      have hl : lookup0 (frameAB a b) "srcA" = a := by simp [lookup0, frameAB]
      rw [hl, show addRuleX1.curve = [⟨0, 0⟩, ⟨1, 1⟩] from rfl]
      exact evaluateCurve_identity a ha0 ha1
    have hc2 : contribution (frameAB a b) addRuleX2 = b := by
      rw [contribution_add _ _ rfl]
      rw [show addRuleX2.source = ["srcB"] from rfl]
      simp only [List.map_cons, List.map_nil, List.prod_cons, List.prod_nil, mul_one]
      have hl : lookup0 (frameAB a b) "srcB" = b := by simp [lookup0, frameAB]
      rw [hl, show addRuleX2.curve = [⟨0, 0⟩, ⟨1, 1⟩] from rfl]
      exact evaluateCurve_identity b hb0 hb1
    rw [hc1, hc2]

/-- Witness for C1 at the first table rule, `a = 1`, `b = 0`. -/
theorem spec_C1_witness :
    objGet (mappingPass METAHUMAN_TO_CC5_MAPPING frame07) "C_NoseWrinkleL_BrowDownL"
      = some (49/100) :=
  (spec_C1 frame07 "C_NoseWrinkleL_BrowDownL" 1 0
    ⟨nwRule, by rw [show METAHUMAN_TO_CC5_MAPPING
        = MAPPING_PART_0 ++ (MAPPING_PART_1 ++ (MAPPING_PART_2 ++ (MAPPING_PART_3
          ++ (MAPPING_PART_4 ++ (MAPPING_PART_5 ++ (MAPPING_PART_6 ++ MAPPING_PART_7))))))
        from by simp [METAHUMAN_TO_CC5_MAPPING, List.append_assoc]]; exact
      ⟨List.mem_append_left _ (List.mem_cons_self _ _), rfl⟩⟩
    (by norm_num) (by norm_num) (by norm_num) (by norm_num)).2.2.1

/-! ## Limit-mode instances -/

/-- A 2-source `Limit` rule (first source is the ceiling), identity curve. -/
def limitRule : MappingRule :=
  ⟨"LimitPair", ["limSrc", "valSrc"], "Y", "Limit", [⟨0, 0⟩, ⟨1, 1⟩]⟩

/-- A 1-source `Limit` rule (plain pass-through), identity curve. -/
def limitRuleSingle : MappingRule :=
  ⟨"LimitSingle", ["limSrc"], "Z", "Limit", [⟨0, 0⟩, ⟨1, 1⟩]⟩

/-- A frame with the ceiling value `l` on `limSrc` and `v` on `valSrc`. -/
def frameLim (l v : ℚ) : Frame := fun s =>
  if s = "limSrc" then some l else if s = "valSrc" then some v else none

theorem contribution_limitRule (l v : ℚ) (h0 : 0 ≤ l) (h1 : l ≤ 1)
    (hv0 : 0 ≤ v) (hv1 : v ≤ 1) :
    contribution (frameLim l v) limitRule = jsMin l v := by
  rw [contribution_eq, ruleValue_limit_multi _ _ "limSrc" "valSrc" [] rfl rfl]
  simp only [List.foldl_cons, List.foldl_nil, one_mul]
  have hl : lookup0 (frameLim l v) "limSrc" = l := by simp [lookup0, frameLim]
  have hv : lookup0 (frameLim l v) "valSrc" = v := by simp [lookup0, frameLim]
  rw [hl, hv, show limitRule.curve = [⟨0, 0⟩, ⟨1, 1⟩] from rfl, jsMin_eq_min]
  exact evaluateCurve_identity _ (le_min h0 hv0) ((min_le_left l v).trans h1)

/-- C4: `Limit` mode treats the first source as a ceiling: a single source
passes through directly, while with several sources every subsequent value
is capped to `min(ceiling, value)` and the capped values are multiplied;
the result is curve-evaluated and multiplied into any existing value of
the same target; in particular ceiling `0.3` with second source `0.8`
gives `0.3` (identity curve), and ceiling `0.8` with second source `0.3`
also gives `0.3`. -/
theorem spec_C4 (frame : Frame) :
    (∀ r : MappingRule, ∀ s, r.mode = "Limit" → r.source = [s] →
        contribution frame r = evaluateCurve r.curve (lookup0 frame s))
    ∧ (∀ r : MappingRule, ∀ l s2 rest, r.mode = "Limit" →
        r.source = l :: s2 :: rest →
        contribution frame r = evaluateCurve r.curve
          ((s2 :: rest).foldl
            (fun p k => p * jsMin (lookup0 frame l) (lookup0 frame k)) 1))
    ∧ (∀ r1 r2 : MappingRule, r2.target = r1.target →
        objGet (mappingPass [r1, r2] frame) r1.target
          = some (contribution frame r1 * contribution frame r2))
    ∧ contribution (frameLim (3/10) (8/10)) limitRule = 3/10
    ∧ contribution (frameLim (8/10) (3/10)) limitRule = 3/10 := by
  refine ⟨?_, ?_, ?_, ?_, ?_⟩
  · intro r s hm hs
    rw [contribution_eq, ruleValue_limit_single frame r s hm hs]
  · intro r l s2 rest hm hs
    rw [contribution_eq, ruleValue_limit_multi frame r l s2 rest hm hs]
  · intro r1 r2 h
    exact mappingPass_pair r1 r2 frame h
  · rw [contribution_limitRule _ _ (by norm_num) (by norm_num) (by norm_num)
      (by norm_num)]
    unfold jsMin
    norm_num
  · rw [contribution_limitRule _ _ (by norm_num) (by norm_num) (by norm_num)
      (by norm_num)]
    unfold jsMin
    norm_num

/-- Witness for C4: the single-source pass-through at a concrete rule and
frame, and the concrete `min(0.3, 0.8) = 0.3` instance. -/
theorem spec_C4_witness :
    (contribution (frameLim (3/10) (8/10)) limitRuleSingle
        = evaluateCurve limitRuleSingle.curve
            (lookup0 (frameLim (3/10) (8/10)) "limSrc"))
    ∧ contribution (frameLim (3/10) (8/10)) limitRule = 3/10 :=
  ⟨(spec_C4 (frameLim (3/10) (8/10))).1 limitRuleSingle "limSrc" rfl rfl,
    (spec_C4 (frameLim (3/10) (8/10))).2.2.2.1⟩

/-! ## Boundary behaviour of `evaluateCurve` and the teeth offset -/

/-- At or before the first key (for key times within `[0,1]`), the curve
returns the first key's value. -/
theorem evaluateCurve_first (k0 : CurveKey) (rest : List CurveKey) (x : ℚ)
    (ht0 : 0 ≤ k0.time) (ht1 : k0.time ≤ 1) (hx : x ≤ k0.time) :
    evaluateCurve (k0 :: rest) x = k0.value := by
  simp only [evaluateCurve]
  have hx1 : jsMax 0 (jsMin 1 x) ≤ k0.time := by
    unfold jsMax jsMin
    split_ifs <;> linarith
  rw [if_pos hx1]

/-- Looking a key up in the full converter output: the two funnel targets
receive the teeth offset on top of the mapping-pass value, everything else
is the mapping-pass value unchanged. -/
theorem objGet_convert (frame : Frame) (off : ℚ) (key : String) :
    objGet (convertMetaHumanToCC5 frame off) key =
      if key = "C_FunnelDL_LowerLipDepressL" ∨ key = "C_FunnelDR_LowerLipDepressR"
      then
        some (match objGet (mappingPass METAHUMAN_TO_CC5_MAPPING frame) key with
          | some w => jsMin 1 (w + off)
          | none => off)
      else objGet (mappingPass METAHUMAN_TO_CC5_MAPPING frame) key := by
  unfold convertMetaHumanToCC5 teethCorrectives
  simp only [List.foldl_cons, List.foldl_nil]
  rw [objGet_applyTeethOffset]
  by_cases hR : key = "C_FunnelDR_LowerLipDepressR"
  · subst hR
    rw [if_pos rfl]
    rw [objGet_applyTeethOffset]
    rw [if_neg (by decide)]
    simp
  · rw [if_neg hR]
    rw [objGet_applyTeethOffset]
    by_cases hL : key = "C_FunnelDL_LowerLipDepressL"
    · subst hL
      simp
    · rw [if_neg hL]
      simp [hL, hR]

theorem funnel_pass_zero_left :
    objGet (mappingPass METAHUMAN_TO_CC5_MAPPING zeroFrame)
      "C_FunnelDL_LowerLipDepressL" = some 0 := by
  rw [objGet_mappingPass]
  rw [show (METAHUMAN_TO_CC5_MAPPING.any
      fun r => r.target == "C_FunnelDL_LowerLipDepressL") = true from rfl]
  have hfil : METAHUMAN_TO_CC5_MAPPING.filter
      (fun r => r.target == "C_FunnelDL_LowerLipDepressL")
      = [⟨"FunnelDL_LowerLipDepressL",
          ["CTRL_expressions_mouthFunnelDL", "CTRL_expressions_mouthLowerLipDepressL"],
          "C_FunnelDL_LowerLipDepressL", "Add", [⟨0, 0⟩, ⟨1, (1/2)⟩]⟩] := by rfl
  simp only [if_true, contribProd, hfil, List.map_cons, List.map_nil,
    List.prod_cons, List.prod_nil, mul_one]
  rw [contribution_add _ _ rfl]
  have hz : ∀ s, lookup0 zeroFrame s = 0 := fun s => rfl
  simp only [List.map_cons, List.map_nil, List.prod_cons, List.prod_nil, hz]
  rw [show (0 * (0 * 1) : ℚ) = 0 by norm_num]
  rw [evaluateCurve_first _ _ _ (by norm_num) (by norm_num) (by norm_num)]

theorem funnel_pass_zero_right :
    objGet (mappingPass METAHUMAN_TO_CC5_MAPPING zeroFrame)
      "C_FunnelDR_LowerLipDepressR" = some 0 := by
  rw [objGet_mappingPass]
  rw [show (METAHUMAN_TO_CC5_MAPPING.any
      fun r => r.target == "C_FunnelDR_LowerLipDepressR") = true from rfl]
  have hfil : METAHUMAN_TO_CC5_MAPPING.filter
      (fun r => r.target == "C_FunnelDR_LowerLipDepressR")
      = [⟨"FunnelDR_LowerLipDepressR",
          ["CTRL_expressions_mouthFunnelDR", "CTRL_expressions_mouthLowerLipDepressR"],
          "C_FunnelDR_LowerLipDepressR", "Add", [⟨0, 0⟩, ⟨1, (1/2)⟩]⟩] := by rfl
  simp only [if_true, contribProd, hfil, List.map_cons, List.map_nil,
    List.prod_cons, List.prod_nil, mul_one]
  rw [contribution_add _ _ rfl]
  have hz : ∀ s, lookup0 zeroFrame s = 0 := fun s => rfl
  simp only [List.map_cons, List.map_nil, List.prod_cons, List.prod_nil, hz]
  rw [show (0 * (0 * 1) : ℚ) = 0 by norm_num]
  rw [evaluateCurve_first _ _ _ (by norm_num) (by norm_num) (by norm_num)]

/-- C5: in the source, `options.teethDownOffset` defaults to `0`, so the
default call leaves the two funnel/lower-lip-depress targets at `0` on the
all-zero frame — contradicting the function's own doc comment
(`default: 0.3`) and the spec; the documented behaviour (targets equal to
`0.3` on zero input, clamped additive offset) only happens when `0.3` is
passed explicitly. -/
theorem spec_C5 :
    objGet (convertMetaHumanToCC5 zeroFrame) "C_FunnelDL_LowerLipDepressL" = some 0
    ∧ objGet (convertMetaHumanToCC5 zeroFrame) "C_FunnelDR_LowerLipDepressR" = some 0
    ∧ (0 : ℚ) ≠ 3/10
    ∧ objGet (convertMetaHumanToCC5 zeroFrame (3/10)) "C_FunnelDL_LowerLipDepressL"
        = some (3/10)
    ∧ jsMin 1 ((8/10 : ℚ) + 3/10) = 1 := by
  refine ⟨?_, ?_, by norm_num, ?_, ?_⟩
  · rw [objGet_convert]
    rw [if_pos (Or.inl rfl), funnel_pass_zero_left]
    unfold jsMin
    norm_num
  · rw [objGet_convert]
    rw [if_pos (Or.inr rfl), funnel_pass_zero_right]
    unfold jsMin
    norm_num
  · rw [objGet_convert]
    rw [if_pos (Or.inl rfl), funnel_pass_zero_left]
    unfold jsMin
    norm_num
  · unfold jsMin
    norm_num

/-- C8 counterexample: with the configured `JAW_CONFIG`
(`ROTATION_RANGE = 0.4363` rad, i.e. 25°), a fully open jaw maps to
`2.0071` rad (≈115°), not `1.7384` rad (≈99.6°) as the claim states. -/
theorem spec_C8_counterexample :
    jawValueToRotation 0 1 = 20071/10000
    ∧ (20071/10000 : ℚ) ≠ 17384/10000
    ∧ 17384/10000 < jawValueToRotation 0 1 := by
  have h : jawValueToRotation 0 1 = 20071/10000 := by
    simp only [jawValueToRotation, JAW_CONFIG, jsMax, jsMin]
    norm_num
  refine ⟨h, by norm_num, ?_⟩
  rw [h]
  norm_num

/-- C8 (amended): the jaw target rotation clamps the jaw value to `[0,1]`
and interpolates linearly between the closed rotation and
`closed + range`, with the configured defaults 90° closed (`1.5708` rad)
and 115° fully open (`2.0071` rad, range `0.4363` rad ≈ 25°); no easing
curve is applied in this code path. -/
theorem spec_C8 (z v : ℚ) (h0 : 0 ≤ v) (h1 : v ≤ 1) :
    jawValueToRotation z v
        = JAW_CONFIG.CLOSED_ROTATION + jsMax 0 (jsMin 1 v) * JAW_CONFIG.ROTATION_RANGE
    ∧ jawValueToRotation z v = 15708/10000 + v * (4363/10000)
    ∧ jawValueToRotation z 0 = 15708/10000
    ∧ jawValueToRotation z 1 = 20071/10000
    ∧ JAW_CONFIG.CLOSED_ROTATION = 15708/10000
    ∧ JAW_CONFIG.CLOSED_ROTATION + JAW_CONFIG.ROTATION_RANGE = 20071/10000
    ∧ JAW_CONFIG.CLOSED_ROTATION_DEG = 90
    ∧ JAW_CONFIG.MAX_OPEN_ROTATION_DEG = 115 := by
  have hc : jsMax 0 (jsMin 1 v) = v := by
    unfold jsMax jsMin
    split_ifs <;> linarith
  refine ⟨rfl, ?_, ?_, ?_, rfl, by simp [JAW_CONFIG]; norm_num, rfl, rfl⟩
  · simp only [jawValueToRotation, JAW_CONFIG, hc]
  · simp only [jawValueToRotation, JAW_CONFIG, jsMax, jsMin]
    norm_num
  · simp only [jawValueToRotation, JAW_CONFIG, jsMax, jsMin]
    norm_num

/-- Witness for C8 at `v = 1/2`. -/
theorem spec_C8_witness :
    jawValueToRotation 0 (1/2) = 15708/10000 + (1/2) * (4363/10000) :=
  (spec_C8 0 (1/2) (by norm_num) (by norm_num)).2.1

/-- C3: the applied frame index is
`min(⌊elapsedSec * 60 + 15⌋, frames.length - 1)`; it is monotone in `now`
for a fixed `startTime`, never exceeds `frames.length - 1`, and is exactly
the index recorded by a successful tick. -/
theorem spec_C3 (startTime now1 now2 : ℚ) (numFrames : ℕ)
    (h0 : startTime ≤ now1) (h12 : now1 ≤ now2) :
    tickFrameIndex startTime now1 numFrames
        = min ⌊(now1 - startTime) / 1000 * TARGET_FPS + FRAME_OFFSET⌋
            ((numFrames : ℤ) - 1)
    ∧ TARGET_FPS = 60 ∧ FRAME_OFFSET = 15
    ∧ tickFrameIndex startTime now1 numFrames
        ≤ tickFrameIndex startTime now2 numFrames
    ∧ tickFrameIndex startTime now1 numFrames ≤ (numFrames : ℤ) - 1
    ∧ (∀ (hq : Bool) (s : PlaybackState) (frames : List FrameData) (now : ℚ)
          (st : PlaybackState),
        tick hq s frames now = (st, TickAction.applyFrame) →
        st.currentFrameIndex
          = (tickFrameIndex s.startTime now frames.length).toNat) := by
  refine ⟨by rw [tickFrameIndex, intMin_eq_min], rfl, rfl, ?_, ?_, ?_⟩
  · unfold tickFrameIndex
    rw [intMin_eq_min, intMin_eq_min]
    refine min_le_min (Int.floor_le_floor ?_) le_rfl
    have h1 : now1 - startTime ≤ now2 - startTime := by linarith
    have h2 : (now1 - startTime) / 1000 ≤ (now2 - startTime) / 1000 := by
      apply div_le_div_of_nonneg_right h1  -- may need different name
      norm_num
    unfold TARGET_FPS
    nlinarith [h2]
  · unfold tickFrameIndex
    rw [intMin_eq_min]
    exact min_le_right _ _
  · intro hq s frames now st h
    simp only [tick] at h
    split_ifs at h <;> injection h with h1 h2 <;> (try simp at h2) <;>
      (subst h1; rfl)

/-- Witness for C3 at `startTime = 0`, `now₁ = 1000`, `now₂ = 2000`,
100 frames. -/
theorem spec_C3_witness :
    tickFrameIndex 0 1000 100 ≤ ((100 : ℕ) : ℤ) - 1 :=
  (spec_C3 0 1000 2000 100 (by norm_num) (by norm_num)).2.2.2.2.1

/-! ## Smoother convergence -/

theorem smoothSeq_closed (t r : ℚ) : ∀ n, t - smoothSeq t r n = t * (1 - r) ^ n := by
  intro n
  induction n with
  | zero => simp [smoothSeq]
  | succ n ih =>
    have hstep : t - (smoothSeq t r n + (t - smoothSeq t r n) * r)
        = (t - smoothSeq t r n) * (1 - r) := by ring
    rw [smoothSeq, hstep, ih, pow_succ, mul_assoc]

theorem smoothState_lookup (name : String) (t r : ℚ) :
    ∀ n, smoothState name t r n name
      = if n = 0 then none else some (smoothSeq t r n) := by
  intro n
  induction n with
  | zero => rfl
  | succ n ih =>
    simp only [smoothState, applyMorphValueSmooth]
    rw [if_neg (by simp)]
    simp only [if_pos rfl]
    rw [ih]
    by_cases hn : n = 0
    · subst hn
      simp [smoothSeq]
    · rw [if_neg hn, if_neg (Nat.succ_ne_zero n)]
      simp [smoothSeq]

/-- C6: the channel smoother (`previous + (target - previous) * rate`,
initialized at `0`) converges monotonically toward a constant target for
`0 < rate < 1` and never overshoots: the state after `n+1` calls holds the
`n+1`-st sequence value, the error has closed form `target * (1-rate)^n`,
errors shrink monotonically, the sequence is monotone toward the target on
either side without crossing it, and it converges. -/
theorem spec_C6 (name : String) (target rate : ℚ)
    (h0 : 0 < rate) (h1 : rate < 1) :
    (∀ n, smoothState name target rate (n + 1) name
        = some (smoothSeq target rate (n + 1)))
    ∧ (∀ n, target - smoothSeq target rate n = target * (1 - rate) ^ n)
    ∧ (∀ n, |target - smoothSeq target rate (n + 1)|
        ≤ |target - smoothSeq target rate n|)
    ∧ (0 ≤ target → ∀ n,
        smoothSeq target rate n ≤ smoothSeq target rate (n + 1)
          ∧ smoothSeq target rate n ≤ target)
    ∧ (target ≤ 0 → ∀ n,
        smoothSeq target rate (n + 1) ≤ smoothSeq target rate n
          ∧ target ≤ smoothSeq target rate n)
    ∧ (∀ ε : ℚ, 0 < ε → ∃ N, ∀ n, N ≤ n →
        |target - smoothSeq target rate n| ≤ ε) := by
  have hr0 : (0 : ℚ) ≤ 1 - rate := by linarith
  have hr1 : 1 - rate ≤ 1 := by linarith
  refine ⟨?_, smoothSeq_closed target rate, ?_, ?_, ?_, ?_⟩
  · intro n
    rw [smoothState_lookup name target rate (n + 1), if_neg (Nat.succ_ne_zero n)]
  · intro n
    have hc := smoothSeq_closed target rate n
    have hc1 := smoothSeq_closed target rate (n + 1)
    rw [hc, hc1, pow_succ, ← mul_assoc, abs_mul]
    have habs : |1 - rate| ≤ 1 := by
      rw [abs_of_nonneg hr0]
      exact hr1
    calc |target * (1 - rate) ^ n| * |1 - rate|
        ≤ |target * (1 - rate) ^ n| * 1 :=
          mul_le_mul_of_nonneg_left habs (abs_nonneg _)
      _ = |target * (1 - rate) ^ n| := mul_one _
  · intro ht n
    have hc := smoothSeq_closed target rate n
    have hpow : (0 : ℚ) ≤ (1 - rate) ^ n := pow_nonneg hr0 n
    constructor
    · have : smoothSeq target rate (n + 1) - smoothSeq target rate n
          = target * (1 - rate) ^ n * rate := by
        rw [smoothSeq, ← hc]
        ring
      nlinarith [mul_nonneg (mul_nonneg ht hpow) h0.le]
    · nlinarith [mul_nonneg ht hpow]
  · intro ht n
    have hc := smoothSeq_closed target rate n
    have hpow : (0 : ℚ) ≤ (1 - rate) ^ n := pow_nonneg hr0 n
    constructor
    · have : smoothSeq target rate (n + 1) - smoothSeq target rate n
          = target * (1 - rate) ^ n * rate := by
        rw [smoothSeq, ← hc]
        ring
      nlinarith [mul_nonneg (mul_nonneg (neg_nonneg.mpr ht) hpow) h0.le]
    · nlinarith [mul_nonneg (neg_nonneg.mpr ht) hpow]
  · intro ε hε
    have hεq : 0 < ε / (|target| + 1) := by
      apply div_pos hε
      have := abs_nonneg target
      linarith
    obtain ⟨N, hN⟩ := exists_pow_lt_of_lt_one hεq (by linarith : 1 - rate < 1)
    refine ⟨N, fun n hn => ?_⟩
    rw [smoothSeq_closed target rate n, abs_mul,
      abs_of_nonneg (pow_nonneg hr0 n)]
    have hmono : (1 - rate) ^ n ≤ (1 - rate) ^ N :=
      pow_le_pow_of_le_one hr0 hr1 hn
    have htpos : (0 : ℚ) < |target| + 1 := by
      have := abs_nonneg target
      linarith
    have hchain : |target| * (1 - rate) ^ n ≤ |target| * ((1 - rate) ^ N) :=
      mul_le_mul_of_nonneg_left hmono (abs_nonneg _)
    have hlast : |target| * ((1 - rate) ^ N) ≤ ε := by
      have h2 : |target| * ((1 - rate) ^ N) ≤ |target| * (ε / (|target| + 1)) :=
        mul_le_mul_of_nonneg_left hN.le (abs_nonneg _)
      have h3 : |target| * (ε / (|target| + 1)) ≤ ε := by
        rw [mul_div_assoc']
        rw [div_le_iff htpos]
        nlinarith [abs_nonneg target]
      linarith
    linarith

/-- Witness for C6 at target `1`, rate `1/2`: two steps reach `3/4`. -/
theorem spec_C6_witness :
    smoothSeq 1 (1/2) 2 = 3/4
    ∧ (1 : ℚ) - smoothSeq 1 (1/2) 2 = 1 * (1 - 1/2) ^ 2 :=
  ⟨by norm_num [smoothSeq],
    (spec_C6 "m" 1 (1/2) (by norm_num) (by norm_num)).2.1 2⟩

/-! ## Jaw-open morph filtering -/

/-- C10: in the corrective playback path, every converted channel whose
name contains `"JawOpen"` or `"Jaw_Open"` is skipped by the write loop and
never written, independently of the jaw bone; the remaining entries are
exactly those that pass the near-zero skip, i.e. the jaw filter removes
only jaw-named entries. -/
theorem spec_C10 (frame : Frame) (hasExisting : String → Bool) (jb : Bool)
    (name : String) (value : ℚ) (hjaw : isJawOpenMorph name = true) :
    ((name, value) ∉ applyMetaHumanToCC5Writes frame hasExisting jb)
    ∧ (∀ jb2, applyMetaHumanToCC5Writes frame hasExisting jb
        = applyMetaHumanToCC5Writes frame hasExisting jb2)
    ∧ morphWriteFilter (convertMetaHumanToCC5 frame) hasExisting
        = ((convertMetaHumanToCC5 frame).filter
            (fun p => !(decide (p.2 < 1/1000) && !(hasExisting p.1)))).filter
            (fun p => !(isJawOpenMorph p.1)) := by
  refine ⟨?_, fun _ => rfl, ?_⟩
  · intro hmem
    unfold applyMetaHumanToCC5Writes morphWriteFilter at hmem
    have hpred := List.of_mem_filter hmem
    simp [hjaw] at hpred
  · unfold morphWriteFilter
    rw [List.filter_filter]

/-- Witness for C10: `C_JawOpen` is never written. -/
theorem spec_C10_witness :
    ("C_JawOpen", (1 : ℚ))
      ∉ applyMetaHumanToCC5Writes zeroFrame (fun _ => false) true :=
  (spec_C10 zeroFrame (fun _ => false) true "C_JawOpen" 1 (by decide)).1

/-! ## Invalid-frame ticks -/

/-- C7 counterexample: an invalid-frame tick still rewrites
`fadeInWeight` (computed before the validity check), so the playback state
is not left untouched: starting from `fadeInWeight = 0` at `now = 150`,
the skipped tick leaves `fadeInWeight = 1/2`. -/
theorem spec_C7_counterexample :
    tick true ⟨true, false, 0, 5, 0⟩ [FrameData.obj 0] 150
      = (⟨true, false, 0, 5, 1/2⟩, TickAction.skipInvalidFrame)
    ∧ (⟨true, false, 0, 5, 1/2⟩ : PlaybackState) ≠ ⟨true, false, 0, 5, 0⟩ := by
  constructor
  · have hfi : tickFrameIndex 0 150 1 = 0 := by
      unfold tickFrameIndex intMin TARGET_FPS FRAME_OFFSET
      have h24 : ((150 : ℚ) - 0) / 1000 * 60 + 15 = 24 := by norm_num
      rw [h24]
      rw [show ((24 : ℚ) = ((24 : ℤ) : ℚ)) by norm_num, Int.floor_intCast]
      norm_num
    simp only [tick, hfi]
    norm_num [jsMin, LIPSYNC_FADE_IN_DURATION, frameValid]
    simp [hfi]
  · intro h
    have := congrArg PlaybackState.fadeInWeight h
    norm_num at this

/-- C7 (amended): when the fetched frame is invalid, the tick is skipped
with only a log: `isPlaying`, `isDraining`, `startTime` and
`currentFrameIndex` are untouched and the action is `skipInvalidFrame`;
`fadeInWeight`, however, is recomputed before the validity check, as on
every playing tick with frames available. -/
theorem spec_C7 (hq : Bool) (s : PlaybackState) (frames : List FrameData)
    (now : ℚ)
    (hq1 : hq = true) (hp : s.isPlaying = true) (hne : frames.length ≠ 0)
    (hend : ¬((frames.length : ℤ) - 1 ≤ tickFrameIndex s.startTime now frames.length
        ∧ s.isDraining = true))
    (hidx : ¬(tickFrameIndex s.startTime now frames.length < 0
        ∨ (frames.length : ℤ) ≤ tickFrameIndex s.startTime now frames.length))
    (hinv : frameValid
        (frames.getD (tickFrameIndex s.startTime now frames.length).toNat
          FrameData.nullish) = false) :
    tick hq s frames now
      = ({ s with
            fadeInWeight := jsMin 1 (((now - s.startTime) / 1000) / LIPSYNC_FADE_IN_DURATION) },
          TickAction.skipInvalidFrame)
    ∧ (tick hq s frames now).1.isPlaying = s.isPlaying
    ∧ (tick hq s frames now).1.isDraining = s.isDraining
    ∧ (tick hq s frames now).1.startTime = s.startTime
    ∧ (tick hq s frames now).1.currentFrameIndex = s.currentFrameIndex := by
  have hmain : tick hq s frames now
      = ({ s with
            fadeInWeight := jsMin 1 (((now - s.startTime) / 1000) / LIPSYNC_FADE_IN_DURATION) },
          TickAction.skipInvalidFrame) := by
    simp only [tick, hq1, hp]
    rw [if_neg (by simp), if_neg (by simp), if_neg hne, if_neg hend,
      if_neg hidx, if_pos (by simpa using hinv)]
  refine ⟨hmain, ?_, ?_, ?_, ?_⟩ <;> rw [hmain]

/-- Witness for C7 at the concrete skipped tick of the counterexample
input. -/
theorem spec_C7_witness :
    tick true ⟨true, false, 0, 5, 0⟩ [FrameData.obj 0] 150
      = ({ (⟨true, false, 0, 5, 0⟩ : PlaybackState) with
            fadeInWeight := jsMin 1 ((((150 : ℚ) - 0) / 1000) / LIPSYNC_FADE_IN_DURATION) },
          TickAction.skipInvalidFrame) := by
  have hfi : tickFrameIndex 0 150 1 = 0 := by
    unfold tickFrameIndex intMin TARGET_FPS FRAME_OFFSET
    have h24 : ((150 : ℚ) - 0) / 1000 * 60 + 15 = 24 := by norm_num
    rw [h24]
    rw [show ((24 : ℚ) = ((24 : ℤ) : ℚ)) by norm_num, Int.floor_intCast]
    norm_num
  refine (spec_C7 true ⟨true, false, 0, 5, 0⟩ [FrameData.obj 0] 150 rfl rfl
    (by norm_num) ?_ ?_ ?_).1
  · show ¬((((1 : ℕ) : ℤ) - 1 ≤ tickFrameIndex 0 150 1) ∧ false = true)
    simp
  · show ¬(tickFrameIndex 0 150 1 < 0 ∨ ((1 : ℕ) : ℤ) ≤ tickFrameIndex 0 150 1)
    rw [hfi]
    norm_num
  · show frameValid ([FrameData.obj 0].getD (tickFrameIndex 0 150 1).toNat
        FrameData.nullish) = false
    rw [hfi]
    rfl
/-! ## Curve lookup: boundary and interpolation behaviour -/

theorem clamp_id (x : ℚ) (h0 : 0 ≤ x) (h1 : x ≤ 1) : jsMax 0 (jsMin 1 x) = x := by
  unfold jsMax jsMin
  split_ifs <;> linarith

/-- The linear interpolation between two keys used by `evaluateCurve`
(first key's value on a degenerate segment). -/
def lerpKeys (a b : CurveKey) (x : ℚ) : ℚ :=
  if b.time - a.time = 0 then a.value
  else a.value + (b.value - a.value) * ((x - a.time) / (b.time - a.time))

theorem lerpKeys_left (a b : CurveKey) (x : ℚ) (hd : a.time < b.time)
    (hx : x = a.time) : lerpKeys a b x = a.value := by
  unfold lerpKeys
  rw [if_neg (sub_pos.mpr hd).ne', hx, sub_self, zero_div, mul_zero, add_zero]

theorem lerpKeys_right (a b : CurveKey) (x : ℚ) (hd : a.time < b.time)
    (hx : x = b.time) : lerpKeys a b x = b.value := by
  unfold lerpKeys
  rw [if_neg (sub_pos.mpr hd).ne', hx, div_self (sub_pos.mpr hd).ne', mul_one]
  ring

/-- C2 counterexample: `evaluateCurve` clamps the input to `[0,1]` before
the boundary checks, so for a curve with key times outside `[0,1]` the
claimed boundary behaviour fails: with keys `[{2,5},{3,7}]` and `x = 3`
(which is `≥` the last key time `3`), the code returns the FIRST key's
value `5`, not the last key's value `7`. -/
theorem spec_C2_counterexample :
    evaluateCurve [⟨2, 5⟩, ⟨3, 7⟩] 3 = 5
    ∧ ((⟨3, 7⟩ : CurveKey).time ≤ (3 : ℚ))
    ∧ ((⟨3, 7⟩ : CurveKey).value ≠ 5) := by
  refine ⟨?_, by norm_num, by norm_num⟩
  simp only [evaluateCurve]
  have hx : jsMax 0 (jsMin 1 (3 : ℚ)) = 1 := by
    unfold jsMax jsMin
    norm_num
  rw [hx]
  rw [if_pos (by norm_num : (1 : ℚ) ≤ (⟨2, 5⟩ : CurveKey).time)]

theorem lerp_bracket_eq_of_le (keys : List CurveKey)
    (hp : ∀ (a b : Fin keys.length), a < b → (keys.get a).time < (keys.get b).time)
    (x : ℚ) (i j : ℕ) (hi : i + 1 < keys.length) (hj : j + 1 < keys.length)
    (hxi : (keys.get ⟨i, Nat.lt_of_succ_lt hi⟩).time ≤ x)
    (hxi1 : x ≤ (keys.get ⟨i + 1, hi⟩).time)
    (hxj : (keys.get ⟨j, Nat.lt_of_succ_lt hj⟩).time ≤ x)
    (hij : i ≤ j) :
    lerpKeys (keys.get ⟨i, Nat.lt_of_succ_lt hi⟩) (keys.get ⟨i + 1, hi⟩) x
      = lerpKeys (keys.get ⟨j, Nat.lt_of_succ_lt hj⟩) (keys.get ⟨j + 1, hj⟩) x := by
  rcases Nat.eq_or_lt_of_le hij with heq | hlt
  · subst heq
    rfl
  · -- i < j: the only possibility is j = i + 1 with x on the shared key time
    have hle : (keys.get ⟨i + 1, hi⟩).time ≤ (keys.get ⟨j, Nat.lt_of_succ_lt hj⟩).time := by
      rcases Nat.eq_or_lt_of_le (Nat.succ_le_of_lt hlt) with h1 | h1
      · have : (⟨i + 1, hi⟩ : Fin keys.length) = ⟨j, Nat.lt_of_succ_lt hj⟩ :=
          Fin.ext h1
        rw [this]
      · exact (hp ⟨i + 1, hi⟩ ⟨j, Nat.lt_of_succ_lt hj⟩ h1).le
    have hxe1 : x = (keys.get ⟨i + 1, hi⟩).time := le_antisymm hxi1 (by linarith)
    have hji1 : j = i + 1 := by
      by_contra hne
      have h1 : i + 1 < j := lt_of_le_of_ne (Nat.succ_le_of_lt hlt) (fun hc => hne hc.symm)
      have := hp ⟨i + 1, hi⟩ ⟨j, Nat.lt_of_succ_lt hj⟩ h1
      linarith
    subst hji1
    have hd1 : (keys.get ⟨i, Nat.lt_of_succ_lt hi⟩).time < (keys.get ⟨i + 1, hi⟩).time :=
      hp _ _ (by simp)
    have hd2 : (keys.get ⟨i + 1, hi⟩).time < (keys.get ⟨i + 1 + 1, hj⟩).time :=
      hp _ _ (by simp)
    rw [lerpKeys_right _ _ _ hd1 hxe1, lerpKeys_left _ _ _ hd2 hxe1]

theorem lerp_bracket_eq (keys : List CurveKey)
    (hp : ∀ (a b : Fin keys.length), a < b → (keys.get a).time < (keys.get b).time)
    (x : ℚ) (i j : ℕ) (hi : i + 1 < keys.length) (hj : j + 1 < keys.length)
    (hxi : (keys.get ⟨i, Nat.lt_of_succ_lt hi⟩).time ≤ x)
    (hxi1 : x ≤ (keys.get ⟨i + 1, hi⟩).time)
    (hxj : (keys.get ⟨j, Nat.lt_of_succ_lt hj⟩).time ≤ x)
    (hxj1 : x ≤ (keys.get ⟨j + 1, hj⟩).time) :
    lerpKeys (keys.get ⟨i, Nat.lt_of_succ_lt hi⟩) (keys.get ⟨i + 1, hi⟩) x
      = lerpKeys (keys.get ⟨j, Nat.lt_of_succ_lt hj⟩) (keys.get ⟨j + 1, hj⟩) x := by
  rcases le_total i j with hij | hij
  · exact lerp_bracket_eq_of_le keys hp x i j hi hj hxi hxi1 hxj hij
  · exact (lerp_bracket_eq_of_le keys hp x j i hj hi hxj hxj1 hxi hij).symm

/-- At or after the last key (strictly sorted key times within `[0,1]`),
the curve returns the last key's value. -/
theorem evaluateCurve_last (k0 : CurveKey) (rest : List CurveKey) (x : ℚ)
    (hsorted : (k0 :: rest).Pairwise (fun a b => a.time < b.time))
    (hrange : ∀ k ∈ k0 :: rest, 0 ≤ k.time ∧ k.time ≤ 1)
    (hlast : ((k0 :: rest).getLast (List.cons_ne_nil k0 rest)).time ≤ x) :
    evaluateCurve (k0 :: rest) x
      = ((k0 :: rest).getLast (List.cons_ne_nil k0 rest)).value := by
  have hbridge : rest.getLastD k0
      = (k0 :: rest).getLast (List.cons_ne_nil k0 rest) :=
    (List.getLast_eq_getLastD k0 rest _).symm
  have hklmem : (k0 :: rest).getLast (List.cons_ne_nil k0 rest) ∈ k0 :: rest :=
    List.getLast_mem _
  have hkl01 := hrange _ hklmem
  have hx1 : ((k0 :: rest).getLast (List.cons_ne_nil k0 rest)).time
      ≤ jsMax 0 (jsMin 1 x) := by
    unfold jsMax jsMin
    split_ifs <;> linarith [hkl01.1, hkl01.2]
  simp only [evaluateCurve]
  rw [hbridge]
  by_cases hb1 : jsMax 0 (jsMin 1 x) ≤ k0.time
  · rw [if_pos hb1]
    cases rest with
    | nil => rfl
    | cons r1 rs =>
      exfalso
      have hp := List.pairwise_iff_get.mp hsorted
      have hlastget := List.getLast_eq_get (k0 :: r1 :: rs) (List.cons_ne_nil _ _)
      have h0l : ((k0 :: r1 :: rs).get ⟨0, by simp⟩).time
          < ((k0 :: r1 :: rs).get ⟨(k0 :: r1 :: rs).length - 1, by simp⟩).time := by
        apply hp
        simp [Fin.lt_def]
      rw [hlastget] at hx1
      have hk0 : ((k0 :: r1 :: rs).get ⟨0, by simp⟩) = k0 := rfl
      rw [hk0] at h0l
      linarith
  · rw [if_neg hb1, if_pos hx1]

/-- Bracketed lookup (strictly sorted key times within `[0,1]`): whenever
`keys[i].time ≤ x ≤ keys[i+1].time`, the curve returns the linear
interpolation between keys `i` and `i+1`. -/
theorem evaluateCurve_bracket (k0 : CurveKey) (rest : List CurveKey) (x : ℚ) (i : ℕ)
    (hsorted : (k0 :: rest).Pairwise (fun a b => a.time < b.time))
    (hrange : ∀ k ∈ k0 :: rest, 0 ≤ k.time ∧ k.time ≤ 1)
    (h : i + 1 < (k0 :: rest).length)
    (hxi : ((k0 :: rest).get ⟨i, Nat.lt_of_succ_lt h⟩).time ≤ x)
    (hxi1 : x ≤ ((k0 :: rest).get ⟨i + 1, h⟩).time) :
    evaluateCurve (k0 :: rest) x
      = lerpKeys ((k0 :: rest).get ⟨i, Nat.lt_of_succ_lt h⟩)
          ((k0 :: rest).get ⟨i + 1, h⟩) x := by
  have hp := List.pairwise_iff_get.mp hsorted
  have hlen : (k0 :: rest).length = rest.length + 1 := by simp
  have hgi_mem : (k0 :: rest).get ⟨i, Nat.lt_of_succ_lt h⟩ ∈ k0 :: rest :=
    List.get_mem _ _ _
  have hgi1_mem : (k0 :: rest).get ⟨i + 1, h⟩ ∈ k0 :: rest := List.get_mem _ _ _
  have hri := hrange _ hgi_mem
  have hri1 := hrange _ hgi1_mem
  have hx0 : 0 ≤ x := le_trans hri.1 hxi
  have hx1 : x ≤ 1 := le_trans hxi1 hri1.2
  have hclamp : jsMax 0 (jsMin 1 x) = x := clamp_id x hx0 hx1
  have hii1 : ((k0 :: rest).get ⟨i, Nat.lt_of_succ_lt h⟩).time
      < ((k0 :: rest).get ⟨i + 1, h⟩).time := by
    apply hp
    simp [Fin.lt_def]
  have hbridge : rest.getLastD k0
      = (k0 :: rest).getLast (List.cons_ne_nil k0 rest) :=
    (List.getLast_eq_getLastD k0 rest _).symm
  simp only [evaluateCurve]
  rw [hclamp, hbridge]
  by_cases hb1 : x ≤ k0.time
  · -- only possible if i = 0 and x is exactly the first key time
    have hi0 : i = 0 := by
      by_contra hne0
      have hpos : 0 < i := Nat.pos_of_ne_zero hne0
      have h0i : ((k0 :: rest).get ⟨0, Nat.succ_pos _⟩).time
          < ((k0 :: rest).get ⟨i, Nat.lt_of_succ_lt h⟩).time := by
        apply hp
        simp [Fin.lt_def, hpos]
      have hk0 : ((k0 :: rest).get ⟨0, Nat.succ_pos _⟩) = k0 := rfl
      rw [hk0] at h0i
      linarith
    subst hi0
    rw [if_pos hb1]
    have hk0 : ((k0 :: rest).get ⟨0, Nat.lt_of_succ_lt h⟩) = k0 := rfl
    have hxeq : x = ((k0 :: rest).get ⟨0, Nat.lt_of_succ_lt h⟩).time := by
      rw [hk0]
      exact le_antisymm hb1 (by simpa [hk0] using hxi)
    rw [lerpKeys_left _ _ _ hii1 hxeq, hk0]
  · rw [if_neg hb1]
    by_cases hb2 : ((k0 :: rest).getLast (List.cons_ne_nil k0 rest)).time ≤ x
    · rw [if_pos hb2]
      have hlastget := List.getLast_eq_get (k0 :: rest) (List.cons_ne_nil k0 rest)
      have hi1last : i + 1 = (k0 :: rest).length - 1 := by
        by_contra hne
        have hlt : i + 1 < (k0 :: rest).length - 1 := by omega
        have := hp ⟨i + 1, h⟩ ⟨(k0 :: rest).length - 1, by omega⟩
          (by simp only [Fin.lt_def]; omega)
        rw [← hlastget] at this
        linarith
      have hcast : (k0 :: rest).getLast (List.cons_ne_nil k0 rest)
          = (k0 :: rest).get ⟨i + 1, h⟩ := by
        rw [hlastget]
        congr 1
        exact Fin.ext hi1last.symm
      have hxeq : x = ((k0 :: rest).get ⟨i + 1, h⟩).time := by
        refine le_antisymm hxi1 ?_
        rw [← hcast]
        exact hb2
      rw [hcast, lerpKeys_right _ _ _ hii1 hxeq]
    · rw [if_neg hb2]
      have hzlen : (((k0 :: rest).zip (k0 :: rest).tail)).length = rest.length := by
        simp
      have hizlt : i < (((k0 :: rest).zip (k0 :: rest).tail)).length := by
        rw [hzlen]
        simpa using h
      have hzget : ((k0 :: rest).zip (k0 :: rest).tail).get ⟨i, hizlt⟩
          = ((k0 :: rest).get ⟨i, Nat.lt_of_succ_lt h⟩, (k0 :: rest).get ⟨i + 1, h⟩) := by
        rw [List.get_zip]
        refine Prod.ext rfl ?_
        exact List.get_tail _ _ _ h
      have hsome : (findBracket (k0 :: rest) x).isSome := by
        rw [findBracket, List.find?_isSome]
        refine ⟨((k0 :: rest).get ⟨i, Nat.lt_of_succ_lt h⟩,
          (k0 :: rest).get ⟨i + 1, h⟩), ?_, ?_⟩
        · rw [List.mem_iff_get]
          exact ⟨⟨i, hizlt⟩, hzget⟩
        · simp only [Bool.and_eq_true, decide_eq_true_eq]
          exact ⟨hxi, hxi1⟩
      obtain ⟨pr, hfb⟩ := Option.isSome_iff_exists.mp hsome
      rw [hfb]
      simp only [Option.getD_some]
      obtain ⟨pa, pb⟩ := pr
      rw [findBracket] at hfb
      have hpred := List.find?_some hfb
      have hmem := List.mem_of_find?_eq_some hfb
      simp only [Bool.and_eq_true, decide_eq_true_eq] at hpred
      obtain ⟨nj, hget⟩ := List.mem_iff_get.mp hmem
      have hj1 : (nj : ℕ) + 1 < (k0 :: rest).length := by
        have hval := nj.isLt
        simp only [List.length_cons]
        omega
      have hjlt : (nj : ℕ) < (k0 :: rest).length := Nat.lt_of_succ_lt hj1
      rw [List.get_zip] at hget
      injection hget with h1 h2
      have h2x : pb = (k0 :: rest).get ⟨(nj : ℕ) + 1, hj1⟩ := by
        rw [← h2]
        exact List.get_tail _ _ _ hj1
      subst h1
      subst h2x
      show lerpKeys ((k0 :: rest).get ⟨nj, _⟩)
          ((k0 :: rest).get ⟨(nj : ℕ) + 1, hj1⟩) x = _
      exact lerp_bracket_eq (k0 :: rest) hp x nj i hj1 h hpred.1 hpred.2 hxi hxi1

/-- C2 (amended): for non-empty keyframe lists with strictly ascending key
times all within `[0,1]` (as in every curve of the mapping table), the
claimed lookup behaviour holds: empty/undefined keys return `x` unchanged,
`x ≤ keys[0].time` returns the first value, `x ≥ keys[last].time` returns
the last value, and a bracketing pair `keys[i].time ≤ x ≤ keys[i+1].time`
yields the linear interpolation between keys `i` and `i+1` (first value on
a degenerate segment).  Without the `[0,1]` restriction the claim is false
because the input is clamped to `[0,1]` before lookup. -/
theorem spec_C2 (keys : List CurveKey) (x : ℚ) (i : ℕ)
    (hsorted : keys.Pairwise (fun a b => a.time < b.time))
    (hrange : ∀ k ∈ keys, 0 ≤ k.time ∧ k.time ≤ 1) :
    (∀ y : ℚ, evaluateCurve [] y = y)
    ∧ (∀ (k0 : CurveKey) (rest : List CurveKey), keys = k0 :: rest →
        x ≤ k0.time → evaluateCurve keys x = k0.value)
    ∧ (∀ hne : keys ≠ [], (keys.getLast hne).time ≤ x →
        evaluateCurve keys x = (keys.getLast hne).value)
    ∧ (∀ h : i + 1 < keys.length,
        (keys.get ⟨i, Nat.lt_of_succ_lt h⟩).time ≤ x →
        x ≤ (keys.get ⟨i + 1, h⟩).time →
        evaluateCurve keys x
          = lerpKeys (keys.get ⟨i, Nat.lt_of_succ_lt h⟩)
              (keys.get ⟨i + 1, h⟩) x) := by
  refine ⟨fun y => rfl, ?_, ?_, ?_⟩
  · intro k0 rest hk hx
    subst hk
    exact evaluateCurve_first k0 rest x (hrange k0 (List.mem_cons_self _ _)).1
      (hrange k0 (List.mem_cons_self _ _)).2 hx
  · intro hne hx
    obtain ⟨k0, rest, rfl⟩ : ∃ a l, keys = a :: l := by
      cases keys with
      | nil => exact absurd rfl hne
      | cons a l => exact ⟨a, l, rfl⟩
    exact evaluateCurve_last k0 rest x hsorted hrange hx
  · intro h hxi hxi1
    obtain ⟨k0, rest, rfl⟩ : ∃ a l, keys = a :: l := by
      cases keys with
      | nil => simp at h
      | cons a l => exact ⟨a, l, rfl⟩
    exact evaluateCurve_bracket k0 rest x i hsorted hrange h hxi hxi1

/-- Witness for C2 on the identity curve at `x = 1`, bracketed by the pair
`(0, 1)`. -/
theorem spec_C2_witness :
    evaluateCurve [⟨0, 0⟩, ⟨1, 1⟩] 1
      = lerpKeys (([⟨0, 0⟩, ⟨1, 1⟩] : List CurveKey).get ⟨0, by norm_num⟩)
          (([⟨0, 0⟩, ⟨1, 1⟩] : List CurveKey).get ⟨1, by norm_num⟩) 1 :=
  (spec_C2 [⟨0, 0⟩, ⟨1, 1⟩] 1 0
    (by
      refine List.Pairwise.cons ?_ ?_
      · intro b hb
        simp only [List.mem_singleton] at hb
        subst hb
        show (0 : ℚ) < 1
        norm_num
      · simp)
    (by
      intro k hk
      simp only [List.mem_cons, List.mem_singleton, List.not_mem_nil, or_false] at hk
      rcases hk with rfl | rfl
      · exact ⟨le_refl 0, by norm_num⟩
      · exact ⟨by norm_num, le_refl 1⟩)).2.2.2
    (by norm_num)
    (by show (0 : ℚ) ≤ 1; norm_num)
    (by show (1 : ℚ) ≤ 1; norm_num)

/-! ## Output range of the converter -/

/-- C9 counterexample: on the all-zero frame (all channel values in
`[0,1]`), the `CornerPullL_UpperLipRaiseL` rule's curve starts at
`-0.003497`, so the returned object contains a negative value. -/
theorem spec_C9_counterexample :
    objGet (convertMetaHumanToCC5 zeroFrame) "C_CornerPullL_UpperLipRaiseL"
        = some (-3497/1000000)
    ∧ ¬(0 ≤ (-3497/1000000 : ℚ)) := by
  refine ⟨?_, by norm_num⟩
  rw [objGet_convert]
  rw [if_neg (by decide)]
  rw [objGet_mappingPass]
  rw [show (METAHUMAN_TO_CC5_MAPPING.any
      fun r => r.target == "C_CornerPullL_UpperLipRaiseL") = true from rfl]
  have hfil : METAHUMAN_TO_CC5_MAPPING.filter
      (fun r => r.target == "C_CornerPullL_UpperLipRaiseL")
      = [⟨"CornerPullL_UpperLipRaiseL",
          ["CTRL_expressions_mouthCornerPullL", "CTRL_expressions_mouthUpperLipRaiseL"],
          "C_CornerPullL_UpperLipRaiseL", "Add", [⟨0, (-3497/1000000)⟩, ⟨1, 1⟩]⟩] := by
    rfl
  simp only [if_true, contribProd, hfil, List.map_cons, List.map_nil,
    List.prod_cons, List.prod_nil, mul_one]
  rw [contribution_add _ _ rfl]
  have hz : ∀ s, lookup0 zeroFrame s = 0 := fun s => rfl
  simp only [List.map_cons, List.map_nil, List.prod_cons, List.prod_nil, hz]
  rw [show (0 * (0 * 1) : ℚ) = 0 by norm_num]
  rw [evaluateCurve_first _ _ _ (by norm_num) (by norm_num) (by norm_num)]

theorem jsMin_bounds (a b : ℚ) (ha : 0 ≤ a ∧ a ≤ 1) (hb : 0 ≤ b ∧ b ≤ 1) :
    0 ≤ jsMin a b ∧ jsMin a b ≤ 1 := by
  unfold jsMin
  split_ifs <;> exact ⟨by linarith [ha.1, hb.1], by linarith [ha.2, hb.2]⟩

theorem foldl_mul_bounds (g : String → ℚ) (hg : ∀ s, 0 ≤ g s ∧ g s ≤ 1) :
    ∀ (l : List String) (init : ℚ), 0 ≤ init → init ≤ 1 →
      0 ≤ l.foldl (fun p s => p * g s) init
        ∧ l.foldl (fun p s => p * g s) init ≤ 1 := by
  intro l
  induction l with
  | nil => intro init h0 h1; exact ⟨h0, h1⟩
  | cons s t ih =>
    intro init h0 h1
    simp only [List.foldl_cons]
    exact ih (init * g s) (mul_nonneg h0 (hg s).1)
      (mul_le_one h1 (hg s).1 (hg s).2)

theorem ruleValue_bounds (frame : Frame) (r : MappingRule)
    (hlk : ∀ s, 0 ≤ lookup0 frame s ∧ lookup0 frame s ≤ 1) :
    0 ≤ ruleValue frame r ∧ ruleValue frame r ≤ 1 := by
  unfold ruleValue
  by_cases hA : r.mode = "Add"
  · rw [if_pos hA]
    exact foldl_mul_bounds _ hlk r.source 1 (by norm_num) le_rfl
  · rw [if_neg hA]
    by_cases hL : r.mode = "Limit"
    · rw [if_pos hL]
      rcases hsrc : r.source with _ | ⟨s0, rest⟩
      · simp only [hsrc, List.length_nil]
        norm_num
      · rcases rest with _ | ⟨s1, rest1⟩
        · simp only [hsrc, List.length_cons, List.length_nil]
          norm_num
          exact hlk s0
        · simp only [hsrc, List.length_cons, List.drop_succ_cons, List.drop_zero]
          rw [if_neg (by omega)]
          exact foldl_mul_bounds
            (fun k => jsMin (lookup0 frame s0) (lookup0 frame k))
            (fun k => jsMin_bounds _ _ (hlk s0) (hlk k))
            (s1 :: rest1) 1 (by norm_num) le_rfl
    · rw [if_neg hL]
      norm_num

theorem mul_bounds_interval (lo a b : ℚ) (hlo1 : -1 ≤ lo) (hlo0 : lo ≤ 0)
    (ha : lo ≤ a ∧ a ≤ 1) (hb : lo ≤ b ∧ b ≤ 1) :
    lo ≤ a * b ∧ a * b ≤ 1 := by
  obtain ⟨ha1, ha2⟩ := ha
  obtain ⟨hb1, hb2⟩ := hb
  rcases le_or_lt 0 a with ha0 | ha0
  · constructor
    · nlinarith [mul_nonneg ha0 (sub_nonneg.mpr hb2),
        mul_nonneg ha0 (by linarith : (0 : ℚ) ≤ b - lo),
        mul_nonneg (sub_nonneg.mpr ha2) (by linarith : (0 : ℚ) ≤ -lo)]
    · nlinarith [mul_nonneg ha0 (sub_nonneg.mpr hb2)]
  · constructor
    · nlinarith [mul_nonneg (by linarith : (0 : ℚ) ≤ -a) (sub_nonneg.mpr hb2)]
    · rcases le_or_lt 0 b with hb0 | hb0
      · nlinarith [mul_nonneg hb0 (by linarith : (0 : ℚ) ≤ -a)]
      · nlinarith [mul_nonneg (by linarith : (0 : ℚ) ≤ -a)
          (by linarith : (0 : ℚ) ≤ 1 + b)]

theorem prod_bounds_of_mem (lo : ℚ) (hlo1 : -1 ≤ lo) (hlo0 : lo ≤ 0) :
    ∀ (l : List ℚ), (∀ v ∈ l, lo ≤ v ∧ v ≤ 1) → lo ≤ l.prod ∧ l.prod ≤ 1 := by
  intro l
  induction l with
  | nil => intro _; exact ⟨by norm_num; linarith, le_rfl⟩
  | cons a t ih =>
    intro hmem
    simp only [List.prod_cons]
    exact mul_bounds_interval lo a t.prod hlo1 hlo0
      (hmem a (List.mem_cons_self _ _))
      (ih fun v hv => hmem v (List.mem_cons_of_mem _ hv))

theorem curveOkId :
    ∀ k ∈ ([⟨0, 0⟩, ⟨1, 1⟩] : List CurveKey),
      (-3497/1000000 : ℚ) ≤ k.value ∧ k.value ≤ 1 := by
  intro k hk
  simp only [List.mem_cons, List.not_mem_nil, or_false] at hk
  rcases hk with rfl | rfl <;> constructor <;> norm_num

theorem curveOkBlink :
    ∀ k ∈ ([⟨0, 0⟩, ⟨(1/2), 1⟩, ⟨1, 0⟩] : List CurveKey),
      (-3497/1000000 : ℚ) ≤ k.value ∧ k.value ≤ 1 := by
  intro k hk
  simp only [List.mem_cons, List.not_mem_nil, or_false] at hk
  rcases hk with rfl | rfl | rfl <;> constructor <;> norm_num

theorem curveOkTiny :
    ∀ k ∈ ([⟨0, (9009/1000000)⟩, ⟨1, 1⟩] : List CurveKey),
      (-3497/1000000 : ℚ) ≤ k.value ∧ k.value ≤ 1 := by
  intro k hk
  simp only [List.mem_cons, List.not_mem_nil, or_false] at hk
  rcases hk with rfl | rfl <;> constructor <;> norm_num

theorem curveOkNeg :
    ∀ k ∈ ([⟨0, (-3497/1000000)⟩, ⟨1, 1⟩] : List CurveKey),
      (-3497/1000000 : ℚ) ≤ k.value ∧ k.value ≤ 1 := by
  intro k hk
  simp only [List.mem_cons, List.not_mem_nil, or_false] at hk
  rcases hk with rfl | rfl <;> constructor <;> norm_num

theorem curveOkHalf :
    ∀ k ∈ ([⟨0, 0⟩, ⟨1, (1/2)⟩] : List CurveKey),
      (-3497/1000000 : ℚ) ≤ k.value ∧ k.value ≤ 1 := by
  intro k hk
  simp only [List.mem_cons, List.not_mem_nil, or_false] at hk
  rcases hk with rfl | rfl <;> constructor <;> norm_num

theorem partCurveOk0 :
    ∀ r ∈ MAPPING_PART_0, ∀ k ∈ r.curve,
      (-3497/1000000 : ℚ) ≤ k.value ∧ k.value ≤ 1 := by
  intro r hr
  simp only [MAPPING_PART_0, List.mem_cons, List.not_mem_nil, or_false] at hr
  rcases hr with rfl | rfl | rfl | rfl | rfl | rfl | rfl | rfl | rfl | rfl | rfl | rfl | rfl | rfl | rfl | rfl <;>
    first | exact curveOkId | exact curveOkBlink | exact curveOkTiny | exact curveOkNeg | exact curveOkHalf

theorem partCurveOk1 :
    ∀ r ∈ MAPPING_PART_1, ∀ k ∈ r.curve,
      (-3497/1000000 : ℚ) ≤ k.value ∧ k.value ≤ 1 := by
  intro r hr
  simp only [MAPPING_PART_1, List.mem_cons, List.not_mem_nil, or_false] at hr
  rcases hr with rfl | rfl | rfl | rfl | rfl | rfl | rfl | rfl | rfl | rfl | rfl | rfl | rfl | rfl | rfl | rfl <;>
    first | exact curveOkId | exact curveOkBlink | exact curveOkTiny | exact curveOkNeg | exact curveOkHalf

theorem partCurveOk2 :
    ∀ r ∈ MAPPING_PART_2, ∀ k ∈ r.curve,
      (-3497/1000000 : ℚ) ≤ k.value ∧ k.value ≤ 1 := by
  intro r hr
  simp only [MAPPING_PART_2, List.mem_cons, List.not_mem_nil, or_false] at hr
  rcases hr with rfl | rfl | rfl | rfl | rfl | rfl | rfl | rfl | rfl | rfl | rfl | rfl | rfl | rfl | rfl | rfl <;>
    first | exact curveOkId | exact curveOkBlink | exact curveOkTiny | exact curveOkNeg | exact curveOkHalf

theorem partCurveOk3 :
    ∀ r ∈ MAPPING_PART_3, ∀ k ∈ r.curve,
      (-3497/1000000 : ℚ) ≤ k.value ∧ k.value ≤ 1 := by
  intro r hr
  simp only [MAPPING_PART_3, List.mem_cons, List.not_mem_nil, or_false] at hr
  rcases hr with rfl | rfl | rfl | rfl | rfl | rfl | rfl | rfl | rfl | rfl | rfl | rfl | rfl | rfl | rfl | rfl <;>
    first | exact curveOkId | exact curveOkBlink | exact curveOkTiny | exact curveOkNeg | exact curveOkHalf

theorem partCurveOk4 :
    ∀ r ∈ MAPPING_PART_4, ∀ k ∈ r.curve,
      (-3497/1000000 : ℚ) ≤ k.value ∧ k.value ≤ 1 := by
  intro r hr
  simp only [MAPPING_PART_4, List.mem_cons, List.not_mem_nil, or_false] at hr
  rcases hr with rfl | rfl | rfl | rfl | rfl | rfl | rfl | rfl | rfl | rfl | rfl | rfl | rfl | rfl | rfl | rfl <;>
    first | exact curveOkId | exact curveOkBlink | exact curveOkTiny | exact curveOkNeg | exact curveOkHalf

theorem partCurveOk5 :
    ∀ r ∈ MAPPING_PART_5, ∀ k ∈ r.curve,
      (-3497/1000000 : ℚ) ≤ k.value ∧ k.value ≤ 1 := by
  intro r hr
  simp only [MAPPING_PART_5, List.mem_cons, List.not_mem_nil, or_false] at hr
  rcases hr with rfl | rfl | rfl | rfl | rfl | rfl | rfl | rfl | rfl | rfl | rfl | rfl | rfl | rfl | rfl | rfl <;>
    first | exact curveOkId | exact curveOkBlink | exact curveOkTiny | exact curveOkNeg | exact curveOkHalf

theorem partCurveOk6 :
    ∀ r ∈ MAPPING_PART_6, ∀ k ∈ r.curve,
      (-3497/1000000 : ℚ) ≤ k.value ∧ k.value ≤ 1 := by
  intro r hr
  simp only [MAPPING_PART_6, List.mem_cons, List.not_mem_nil, or_false] at hr
  rcases hr with rfl | rfl | rfl | rfl | rfl | rfl | rfl | rfl | rfl | rfl | rfl | rfl | rfl | rfl | rfl | rfl <;>
    first | exact curveOkId | exact curveOkBlink | exact curveOkTiny | exact curveOkNeg | exact curveOkHalf

theorem partCurveOk7 :
    ∀ r ∈ MAPPING_PART_7, ∀ k ∈ r.curve,
      (-3497/1000000 : ℚ) ≤ k.value ∧ k.value ≤ 1 := by
  intro r hr
  simp only [MAPPING_PART_7, List.mem_cons, List.not_mem_nil, or_false] at hr
  rcases hr with rfl | rfl | rfl | rfl | rfl | rfl | rfl | rfl | rfl | rfl | rfl | rfl | rfl | rfl | rfl | rfl <;>
    first | exact curveOkId | exact curveOkBlink | exact curveOkTiny | exact curveOkNeg | exact curveOkHalf

/-- Every curve key value in the mapping table lies in
`[-0.003497, 1]`. -/
theorem tableCurveOk :
    ∀ r ∈ METAHUMAN_TO_CC5_MAPPING, ∀ k ∈ r.curve,
      (-3497/1000000 : ℚ) ≤ k.value ∧ k.value ≤ 1 := by
  intro r hr
  simp only [METAHUMAN_TO_CC5_MAPPING, List.mem_append, or_assoc] at hr
  rcases hr with h | h | h | h | h | h | h | h
  · exact partCurveOk0 r h
  · exact partCurveOk1 r h
  · exact partCurveOk2 r h
  · exact partCurveOk3 r h
  · exact partCurveOk4 r h
  · exact partCurveOk5 r h
  · exact partCurveOk6 r h
  · exact partCurveOk7 r h

theorem contribution_bounds (frame : Frame) (r : MappingRule)
    (hlk : ∀ s, 0 ≤ lookup0 frame s ∧ lookup0 frame s ≤ 1)
    (hcurve : ∀ k ∈ r.curve, (-3497/1000000 : ℚ) ≤ k.value ∧ k.value ≤ 1) :
    (-3497/1000000 : ℚ) ≤ contribution frame r ∧ contribution frame r ≤ 1 := by
  rw [contribution_eq]
  by_cases hc : r.curve = []
  · rw [hc]
    have hrv := ruleValue_bounds frame r hlk
    show (-3497/1000000 : ℚ) ≤ ruleValue frame r ∧ ruleValue frame r ≤ 1
    exact ⟨le_trans (by norm_num) hrv.1, hrv.2⟩
  · exact evaluateCurve_bounds r.curve _ _ _ hc hcurve

/-- C9 (amended): with all input channel values in `[0,1]`, every value of
the object returned by `convertMetaHumanToCC5` (default offset) lies in
`[-0.003497, 1]` — not `[0,1]`: the curves starting at `-0.003497` can
make outputs slightly negative, but nothing escapes `[-0.003497, 1]`. -/
theorem spec_C9 (frame : Frame)
    (hf : ∀ s v, frame s = some v → 0 ≤ v ∧ v ≤ 1) :
    ∀ T v, objGet (convertMetaHumanToCC5 frame) T = some v →
      (-3497/1000000 : ℚ) ≤ v ∧ v ≤ 1 := by
  have hlk : ∀ s, 0 ≤ lookup0 frame s ∧ lookup0 frame s ≤ 1 := by
    intro s
    unfold lookup0
    cases h : frame s with
    | none => norm_num
    | some w => simpa using hf s w h
  have hpassBound : ∀ T w,
      objGet (mappingPass METAHUMAN_TO_CC5_MAPPING frame) T = some w →
      (-3497/1000000 : ℚ) ≤ w ∧ w ≤ 1 := by
    intro T w hw
    rw [objGet_mappingPass] at hw
    by_cases hany : (METAHUMAN_TO_CC5_MAPPING.any fun r => r.target == T) = true
    · rw [if_pos hany] at hw
      injection hw with hw
      subst hw
      apply prod_bounds_of_mem _ (by norm_num) (by norm_num)
      intro v hv
      rw [List.mem_map] at hv
      obtain ⟨r, hrmem, rfl⟩ := hv
      have hrtab : r ∈ METAHUMAN_TO_CC5_MAPPING := List.mem_of_mem_filter hrmem
      exact contribution_bounds frame r hlk (tableCurveOk r hrtab)
    · rw [if_neg hany] at hw
      exact absurd hw (by simp)
  intro T v hv
  rw [objGet_convert] at hv
  by_cases hfun : T = "C_FunnelDL_LowerLipDepressL"
      ∨ T = "C_FunnelDR_LowerLipDepressR"
  · rw [if_pos hfun] at hv
    injection hv with hv
    cases hpl : objGet (mappingPass METAHUMAN_TO_CC5_MAPPING frame) T with
    | none =>
      rw [hpl] at hv
      subst hv
      norm_num
    | some w =>
      rw [hpl] at hv
      have hwb := hpassBound T w hpl
      subst hv
      show (-3497/1000000 : ℚ) ≤ jsMin 1 (w + 0) ∧ jsMin 1 (w + 0) ≤ 1
      rw [add_zero]
      unfold jsMin
      split_ifs with h1
      · exact ⟨by norm_num, le_rfl⟩
      · exact ⟨le_trans (by norm_num) hwb.1, by linarith⟩
  · rw [if_neg hfun] at hv
    exact hpassBound T v hv

/-- Witness for C9: on the zero frame the left funnel target holds `0`,
which the theorem bounds into `[-0.003497, 1]`. -/
theorem spec_C9_witness :
    (-3497/1000000 : ℚ) ≤ 0 ∧ (0 : ℚ) ≤ 1 :=
  spec_C9 zeroFrame (fun _ _ h => nomatch h) "C_FunnelDL_LowerLipDepressL" 0
    (by
      rw [objGet_convert, if_pos (Or.inl rfl), funnel_pass_zero_left]
      unfold jsMin
      norm_num)

end CC5
